import Mathlib

/-!
# CuMCubes: the host-side entry points of `cumcubes.cpp`

A shallow embedding of the three functions of `src/cumcubes/src/cumcubes.cpp`
(`marching_cubes`, `marching_cubes_func`, `save_mesh_as_ply`) together with the
fragment of the tensor library they use, and the properties of the
specification that concern them.

Modelling conventions.

* A tensor is its dtype, its sizes, two flags (contiguity, device) and its
  row-major sequence of elements.  An element is held as the unsigned number
  of its machine word (the IEEE-754 bit pattern of a float32, the two's
  complement pattern of an int32, the value of a uint8).
* Machine integers are mathematical integers with an explicit wrap to 32 bits.
* `assert` checks only in a build without `NDEBUG`; with `NDEBUG`, the setting
  of a default Python extension build, it is compiled out.  Every entry point
  takes the build flag `ndebug`, and what it then does past a compiled-out
  `assert` is modelled too (a read past the end of a vector is undefined
  behaviour).
* Exceptions, aborts and undefined behaviour are results `Except.error`.
* Effects are recorded in an output list: the events of a call (evaluator
  invocations, grid writes, kernel invocations), or what the writer does with
  its stream (bytes sent, `int32_t` expressions computed, buffer ranges read).
* The host is little-endian, as on every platform with a CUDA toolchain.
-/

namespace CuMCubes

/-! ## Errors and effectful runs -/

/-- Ways in which a call can end without returning. -/
inductive Err where
  /-- A `c10::Error` raised by `TORCH_CHECK` (also through `CHECK_*`). -/
  | torchCheck
  /-- A false `assert`: the process aborts. -/
  | assertFailed
  /-- A tensor index or a dimension out of range. -/
  | indexError
  /-- An operation of the tensor library refused its arguments. -/
  | runtimeError
  /-- The Python evaluator raised, or its result is not a float. -/
  | pyError
  /-- No CUDA device could take the tensor. -/
  | cudaError
  /-- The extraction kernel failed. -/
  | kernelError
  /-- An input was refused as invalid (no path of the code raises it). -/
  | invalidInput
  /-- An I/O failure was reported (no path of the code raises it). -/
  | ioFailure
  /-- Undefined behaviour: a read outside a buffer or past the end of a
  vector. -/
  | undefinedBehaviour
  deriving DecidableEq, Repr

/-- The outcome of a call together with what it emitted, in order.  What was
emitted before a failure is kept. -/
structure Run (ω α : Type) where
  result : Except Err α
  out : List ω

namespace Run

/-- Return normally, emitting nothing. -/
def ret {ω α : Type} (a : α) : Run ω α := ⟨.ok a, []⟩

/-- Sequencing: the second part runs only when the first returned. -/
def andThen {ω α β : Type} (x : Run ω α) (f : α → Run ω β) : Run ω β :=
  match x.result with
  | .error e => ⟨.error e, x.out⟩
  | .ok a => ⟨(f a).result, x.out ++ (f a).out⟩

instance {ω : Type} : Monad (Run ω) where
  pure := ret
  bind := andThen

/-- Emit one item. -/
def emit {ω : Type} (w : ω) : Run ω Unit := ⟨.ok (), [w]⟩

/-- Use the result of a pure fallible computation. -/
def lift {ω α : Type} (x : Except Err α) : Run ω α := ⟨x, []⟩

/-- The loop `for (i = start; i < start + count; ++i) s = body(i, s)`, where
`s` stands for the variables the body updates: stops at the first iteration
that fails. -/
def loop {ω σ : Type} (body : Nat → σ → Run ω σ) : Nat → Nat → σ → Run ω σ
  | _, 0, s => ret s
  | start, count + 1, s => andThen (body start s) (fun s' => loop body (start + 1) count s')

/-- The run `x` with `ws` emitted before it. -/
def after {ω α : Type} (ws : List ω) (x : Run ω α) : Run ω α := ⟨x.result, ws ++ x.out⟩

/-- Whether the call returned normally. -/
def succeeded {ω α : Type} (x : Run ω α) : Bool :=
  match x.result with
  | .ok _ => true
  | .error _ => false

/-- The error the call ended with, if any. -/
def failure {ω α : Type} (x : Run ω α) : Option Err :=
  match x.result with
  | .ok _ => none
  | .error e => some e

end Run

/-! ## Machine integers and floats -/

/-- The value of a 64-bit integer after conversion to `int32_t`, and the value
of an `int32_t` expression: reduction modulo 2^32 into [-2^31, 2^31). -/
def toInt32 (n : Int) : Int := (n + 2 ^ 31) % 2 ^ 32 - 2 ^ 31

/-- A `float`, held as its IEEE-754 binary32 bit pattern. -/
abbrev F32 := Nat

/-- Whether the bit pattern is a NaN. -/
def F32.isNaN (a : F32) : Bool := decide (0x7F800000 < a % 2 ^ 31)

/-- The position of a non-NaN bit pattern on the number line: the magnitude
bits, negated when the sign bit is set (so that -0 and +0 coincide). -/
def F32.key (a : F32) : Int :=
  if a % 2 ^ 32 < 2 ^ 31 then ((a % 2 ^ 31 : Nat) : Int) else -((a % 2 ^ 31 : Nat) : Int)

/-- The comparison `a < b` of two floats. -/
def F32.lt (a b : F32) : Bool := !a.isNaN && !b.isNaN && decide (a.key < b.key)

/-- The comparison `a >= b` of two floats. -/
def F32.ge (a b : F32) : Bool := !a.isNaN && !b.isNaN && decide (b.key ≤ a.key)

/-! ## Tensors -/

/-- The element types (`c10::ScalarType`) that occur in this program. -/
inductive ScalarType where
  | Byte
  | Int
  | Long
  | Float
  | Double
  deriving DecidableEq, Repr

/-- Size in bytes of one element. -/
def ScalarType.itemsize : ScalarType → Nat
  | .Byte => 1
  | .Int => 4
  | .Long => 8
  | .Float => 4
  | .Double => 8

/-- Result type of an operation on two tensors (`c10::promoteTypes`). -/
def promoteTypes : ScalarType → ScalarType → ScalarType
  | .Double, _ => .Double
  | _, .Double => .Double
  | .Float, _ => .Float
  | _, .Float => .Float
  | .Long, _ => .Long
  | _, .Long => .Long
  | .Int, _ => .Int
  | _, .Int => .Int
  | .Byte, .Byte => .Byte

/-- A `torch::Tensor`: dtype, sizes, whether it is stored contiguously, whether
it lives on a CUDA device, and its elements in row-major order. -/
structure Tensor where
  dtype : ScalarType
  sizes : List Nat
  is_contiguous : Bool
  is_cuda : Bool
  elem : Nat → Nat

namespace Tensor

/-- Number of dimensions. -/
def ndimension (t : Tensor) : Nat := t.sizes.length

/-- Number of elements. -/
def numel (t : Tensor) : Nat := t.sizes.prod

/-- The extent `t.size(d)`; a dimension out of range raises. -/
def size (t : Tensor) (d : Nat) : Except Err Nat :=
  match t.sizes.get? d with
  | some n => .ok n
  | none => .error .indexError

/-- The machine word of element `i` (row-major), as an unsigned number. -/
def word (t : Tensor) (i : Nat) : Nat := t.elem i % 2 ^ (8 * t.dtype.itemsize)

/-- The tensor moved to the host: `t.to(torch::kCPU)`. -/
def to_cpu (t : Tensor) : Tensor := { t with is_cuda := false }

/-- The tensor moved to a CUDA device: `t.to(torch::kCUDA)`.  Fails when no
device is available. -/
def to_cuda (cuda_available : Bool) (t : Tensor) : Except Err Tensor :=
  if t.is_cuda then .ok t
  else if cuda_available then .ok { t with is_cuda := true }
  else .error .cudaError

/-- Row-major offset of a multi-index, with the bounds check of
`Tensor::index`: `none` when the rank differs or an index is out of range. -/
def offset : List Nat → List Nat → Option Nat
  | [], [] => some 0
  | n :: sizes, i :: idx =>
    if i < n then (offset sizes idx).map (fun o => i * sizes.prod + o) else none
  | _, _ => none

/-- The tensor `torch::zeros(sizes, dtype, device)`. -/
def zeros (sizes : List Nat) (dtype : ScalarType) (cuda : Bool) : Tensor :=
  { dtype := dtype, sizes := sizes, is_contiguous := true, is_cuda := cuda, elem := fun _ => 0 }

/-- The tensor after `t.index_put_(idx, v)` with a full integer index. -/
def index_put (t : Tensor) (idx : List Nat) (v : Nat) : Except Err Tensor :=
  match offset t.sizes idx with
  | some o => .ok { t with elem := fun p => if p = o then v else t.elem p }
  | none => .error .indexError

/-- The element `t.index(idx)` for a full integer index. -/
def index (t : Tensor) (idx : List Nat) : Except Err Nat :=
  match offset t.sizes idx with
  | some o => .ok (t.word o)
  | none => .error .indexError

end Tensor

/-! ## What `cumcubes.hpp` declares -/

/-- Modelled from the spec: the macro `CHECK_CONTIGUOUS` of `cumcubes.hpp`,
which is not part of the source; the contiguity validation of spec 4.1, a
`TORCH_CHECK` that the tensor is stored in the packed layout. -/
def CHECK_CONTIGUOUS (x : Tensor) : Except Err Unit :=
  if x.is_contiguous then .ok () else .error .torchCheck

/-- Modelled from the spec: the macro `CHECK_INPUT` of `cumcubes.hpp`, which is
not part of the source; the validation step of spec 4.1 on a grid supplied
directly.  It checks contiguity; `requires_cuda` says whether it also insists
on a CUDA-resident tensor, which the spec leaves open. -/
def CHECK_INPUT (requires_cuda : Bool) (x : Tensor) : Except Err Unit :=
  if requires_cuda && !x.is_cuda then .error .torchCheck else CHECK_CONTIGUOUS x

/-- The three components of a `float[3]`. -/
abbrev Vec3 := F32 × F32 × F32

/-- The extraction kernel `marching_cubes_wrapper`, declared in `cumcubes.hpp`
and defined outside the source: a parameter of the entry points. -/
abbrev Kernel := Tensor → F32 → Vec3 → Vec3 → Bool → Except Err (List Tensor)

/-- The Python callable `func`: called on three floats, it raises or yields
an object that `cast<float>` turns into a float (or fails to). -/
abbrev Evaluator := F32 → F32 → F32 → Except Err F32

/-- What the entry points do that a caller or a collaborator can observe. -/
inductive Event where
  /-- The evaluator was invoked on `(x, y, z)`. -/
  | evalCall (x y z : F32)
  /-- Entry `(i, j, k)` of the density grid was set to `v`. -/
  | gridWrite (i j k : Nat) (v : F32)
  /-- The extraction kernel was invoked. -/
  | kernelCall (grid : Tensor) (thresh : F32) (l u : Vec3) (verbose : Bool)

/-- Whether the event is an invocation of the evaluator. -/
def Event.isEvalCall : Event → Bool
  | .evalCall _ _ _ => true
  | _ => false

/-- Whether the event is a write into the density grid. -/
def Event.isGridWrite : Event → Bool
  | .gridWrite _ _ _ _ => true
  | _ => false

/-- Whether the event is an invocation of the extraction kernel. -/
def Event.isKernelCall : Event → Bool
  | .kernelCall _ _ _ _ _ => true
  | _ => false

/-- The grid handed to the kernel, when the event is a kernel invocation. -/
def Event.kernelGrid : Event → Option Tensor
  | .kernelCall g _ _ _ _ => some g
  | _ => none

/-- A `TORCH_CHECK(cond)`. -/
def TORCH_CHECK (cond : Bool) : Except Err Unit :=
  if cond then .ok () else .error .torchCheck

/-- An `assert(cond)`: with `NDEBUG` it is compiled out and the condition is
not looked at; without, a false condition aborts. -/
def c_assert (ndebug : Bool) (cond : Bool) : Except Err Unit :=
  if ndebug || cond then .ok () else .error .assertFailed

/-- The array `{v[0], v[1], v[2]}` of a vector with at least three elements. -/
def vec3 (v : List F32) : Vec3 := (v.getD 0 0, v.getD 1 0, v.getD 2 0)

/-- The initialiser `{v[0], v[1], v[2]}` (lines 25-26 and 67-68): on a vector
of fewer than three elements `operator[]` reads past its end. -/
def read_vec3 (v : List F32) : Except Err Vec3 :=
  if 3 ≤ v.length then .ok (vec3 v) else .error .undefinedBehaviour

/-- Invoke the extraction kernel. -/
def call_kernel (wrapper : Kernel) (grid : Tensor) (thresh : F32) (l u : Vec3)
    (verbose : Bool) : Run Event (List Tensor) :=
  ⟨wrapper grid thresh l u verbose, [.kernelCall grid thresh l u verbose]⟩

/-! ## `marching_cubes` (lines 11-31) -/

/-- The entry point `marching_cubes`. -/
def marching_cubes (ndebug requires_cuda : Bool) (wrapper : Kernel) (density_grid : Tensor)
    (thresh : F32) (lower upper : List F32) (verbose : Bool) : Run Event (List Tensor) := do
  Run.lift (CHECK_INPUT requires_cuda density_grid)
  Run.lift (TORCH_CHECK (density_grid.ndimension == 3))
  Run.lift (c_assert ndebug (lower.length == 3))
  Run.lift (c_assert ndebug (upper.length == 3))
  let l ← Run.lift (read_vec3 lower)
  let u ← Run.lift (read_vec3 upper)
  let results ← call_kernel wrapper density_grid thresh l u verbose
  return results

/-! ## `marching_cubes_func` (lines 34-74) -/

/-- The value `t.index(idx).item<float>()`: the element itself for a float
tensor, its conversion `cvt` to float for another dtype. -/
def item_float (cvt : ScalarType → Nat → F32) (t : Tensor) (idx : List Nat) : Except Err F32 :=
  match t.index idx with
  | .ok w => .ok (if t.dtype = .Float then w else cvt t.dtype w)
  | .error e => .error e

/-- An `int32_t` loop counter that ran past 2^31 - 1 has overflowed. -/
def int32_counter (i : Nat) : Except Err Unit :=
  if i < 2 ^ 31 then .ok () else .error .undefinedBehaviour

/-- The body of the innermost loop (lines 54-59): evaluate `func` at sample
point `(i, j, k)` and store the density at `(i, j, k)` of the grid. -/
def sample_one (cvt : ScalarType → Nat → F32) (func : Evaluator) (sample_points : Tensor)
    (i j k : Nat) (density_grid : Tensor) : Run Event Tensor := do
  Run.lift (int32_counter k)
  let x ← Run.lift (item_float cvt sample_points [i, j, k, 0])
  let y ← Run.lift (item_float cvt sample_points [i, j, k, 1])
  let z ← Run.lift (item_float cvt sample_points [i, j, k, 2])
  Run.emit (.evalCall x y z)
  let density ← Run.lift (func x y z)
  let grid ← Run.lift (density_grid.index_put [i, j, k] density)
  Run.emit (.gridWrite i j k density)
  return grid

/-- Lines 46-62: allocate the density grid and fill it by the three nested
loops over the sample points. -/
def build_density_grid (cvt : ScalarType → Nat → F32) (func : Evaluator)
    (sample_points : Tensor) : Run Event Tensor := do
  let curr_device := sample_points.is_cuda
  let n0 ← Run.lift (sample_points.size 0)
  let n1 ← Run.lift (sample_points.size 1)
  let n2 ← Run.lift (sample_points.size 2)
  let density_grid := Tensor.zeros [n0, n1, n0] .Float curr_device
  Run.loop (fun i g => do
    Run.lift (int32_counter i)
    Run.loop (fun j g => do
      Run.lift (int32_counter j)
      Run.loop (fun k g => sample_one cvt func sample_points i j k g) 0 n2 g) 0 n1 g) 0 n0
    density_grid

/-- The entry point `marching_cubes_func`. -/
def marching_cubes_func (ndebug cuda_available : Bool) (cvt : ScalarType → Nat → F32)
    (wrapper : Kernel) (sample_points : Tensor) (thresh : F32) (lower upper : List F32)
    (func : Evaluator) (verbose : Bool) : Run Event (List Tensor) := do
  Run.lift (CHECK_CONTIGUOUS sample_points)
  Run.lift (TORCH_CHECK (sample_points.ndimension == 4))
  let density_grid ← build_density_grid cvt func sample_points
  Run.lift (c_assert ndebug (lower.length == 3))
  Run.lift (c_assert ndebug (upper.length == 3))
  let l ← Run.lift (read_vec3 lower)
  let u ← Run.lift (read_vec3 upper)
  let density_grid ← Run.lift (density_grid.to_cuda cuda_available)
  let results ← call_kernel wrapper density_grid thresh l u verbose
  return results

/-! ## `save_mesh_as_ply` (lines 76-125) -/

/-- The bytes of an ASCII text. -/
def ascii (s : String) : List Nat := s.toList.map Char.toNat

/-- The bytes of a machine word of `width` bytes in the memory of the
(little-endian) host. -/
def le_bytes (width : Nat) (w : Nat) : List Nat :=
  (List.range width).map (fun k => w / 256 ^ k % 256)

/-- The result of `t.data_ptr<T>()`: the buffer of a contiguous tensor, seen
as `len` machine words of `itemsize` bytes. -/
structure Ptr where
  itemsize : Nat
  len : Nat
  word : Nat → Nat

/-- The call `t.data_ptr<T>()`: raises unless the tensor has element type
`T`. -/
def Tensor.data_ptr (t : Tensor) (T : ScalarType) : Except Err Ptr :=
  if t.dtype = T then .ok ⟨T.itemsize, t.numel, t.word⟩ else .error .runtimeError

/-- Whether the `count` machine words from offset `off` on lie inside the
buffer. -/
def Ptr.in_bounds (p : Ptr) (off count : Int) : Bool :=
  decide (0 ≤ off ∧ 0 ≤ count ∧ off + count ≤ (p.len : Int))

/-- The bytes that `write((char *)&p[off], count * sizeof(T))` takes from
memory, `off` and `count` being signed: a range that leaves the buffer is
undefined behaviour. -/
def Ptr.read (p : Ptr) (off count : Int) : Except Err (List Nat) :=
  if p.in_bounds off count then
    .ok ((List.range count.toNat).flatMap (fun k => le_bytes p.itemsize (p.word (off.toNat + k))))
  else .error .undefinedBehaviour

/-- The tensor `torch::ones({n, 1}, kInt, kCPU) * 3`; a negative extent
raises. -/
def faces_head (n : Int) : Except Err Tensor :=
  if 0 ≤ n then
    .ok { dtype := .Int, sizes := [n.toNat, 1], is_contiguous := true, is_cuda := false,
          elem := fun _ => 3 }
  else .error .runtimeError

/-- The tensor `torch::cat({a, b}, 1)` of two host tensors: both must be
two-dimensional with the same number of rows (a one-dimensional empty `b` is
skipped).  The result is a fresh contiguous tensor of the promoted dtype.  Its
elements are given as the machine words of the operands, which is what the
conversion to the promoted dtype yields whenever that dtype is `Int`. -/
def cat1 (a b : Tensor) : Except Err Tensor :=
  match a.sizes, b.sizes with
  | [_, _], [0] => .ok { a with is_contiguous := true }
  | [m, ca], [m', cb] =>
    if m = m' then
      .ok { dtype := promoteTypes a.dtype b.dtype, sizes := [m, ca + cb],
            is_contiguous := true, is_cuda := false,
            elem := fun p =>
              if p % (ca + cb) < ca then a.word (p / (ca + cb) * ca + p % (ca + cb))
              else b.word (p / (ca + cb) * cb + (p % (ca + cb) - ca)) }
    else .error .runtimeError
  | _, _ => .error .runtimeError

/-- What the writer does that can be observed: a byte sent to the stream
`ply_file`, an `int32_t` expression it computed, a range of a buffer it
read. -/
inductive Out where
  /-- One byte was sent to the stream. -/
  | byte (b : Nat)
  /-- An `int32_t` expression was computed: its mathematical value `exact` and
  the value `held` by the machine. -/
  | int32 (exact held : Int)
  /-- The `count` machine words from offset `off` of a buffer of `len` words
  were read. -/
  | read (len : Nat) (off count : Int)
  deriving DecidableEq, Repr

/-- The byte of an item sent to the stream. -/
def Out.byte? : Out → Option Nat
  | .byte b => some b
  | _ => none

/-- Whether the item is harmless: a byte, an `int32_t` expression that holds
its mathematical value, a read that lies inside its buffer. -/
def Out.safe : Out → Bool
  | .byte _ => true
  | .int32 exact held => decide (exact = held)
  | .read len off count => decide (0 ≤ off ∧ 0 ≤ count ∧ off + count ≤ (len : Int))

/-- The bytes among a list of items, in order. -/
def bytes_of (out : List Out) : List Nat := out.filterMap Out.byte?

/-- Send bytes to the stream: `ply_file << text`. -/
def put (bs : List Nat) : Run Out Unit := ⟨.ok (), bs.map Out.byte⟩

/-- Compute an `int32_t` expression of mathematical value `x`: the machine
holds `x` wrapped to 32 bits. -/
def int32_expr (x : Int) : Run Out Int := ⟨.ok (toInt32 x), [.int32 x (toInt32 x)]⟩

/-- The call `ply_file.write((char *)&p[off], count * sizeof(T))`: the range
is read from the buffer and its bytes are sent to the stream. -/
def write_from (p : Ptr) (off count : Int) : Run Out Unit :=
  Run.andThen (Run.emit (.read p.len off count)) (fun _ =>
    Run.andThen (Run.lift (p.read off count)) put)

/-- Lines 111-112 of `save_mesh_as_ply`, the body of the vertex loop: the
three positions and the three colors of vertex `i`, each taken from offset
`i * 3` of its buffer. -/
def write_vertex (vertices_ptr colors_ptr : Ptr) (i : Nat) : Run Out Unit := do
  let off ← int32_expr (i * 3)
  write_from vertices_ptr off 3
  let off ← int32_expr (i * 3)
  write_from colors_ptr off 3

/-- Lines 115-122 of `save_mesh_as_ply`: pad the faces with the count 3 and
write the padded rows in one piece. -/
def write_faces (faces : Tensor) (num_faces : Int) : Run Out Unit := do
  let head ← Run.lift (faces_head num_faces)
  let padded_faces ← Run.lift (cat1 head faces)
  Run.lift (CHECK_CONTIGUOUS padded_faces)
  let faces_ptr ← Run.lift (padded_faces.data_ptr .Int)
  let count ← int32_expr (num_faces * 4)
  write_from faces_ptr 0 count

/-- Lines 92-122 of `save_mesh_as_ply`: everything done with the stream
`ply_file`, for tensors already on the host. -/
def ply_stream (vertices faces colors : Tensor) : Run Out Unit := do
  put (ascii "ply\n")
  put (ascii "format binary_little_endian 1.0\n")
  put (ascii "element vertex ")
  let nv ← Run.lift (vertices.size 0)
  put (ascii (toString nv))
  put (ascii "\n")
  put (ascii "property float x\n")
  put (ascii "property float y\n")
  put (ascii "property float z\n")
  put (ascii "property uchar red\n")
  put (ascii "property uchar green\n")
  put (ascii "property uchar blue\n")
  put (ascii "element face ")
  let nf ← Run.lift (faces.size 0)
  put (ascii (toString nf))
  put (ascii "\n")
  put (ascii "property list int int vertex_index\n")
  put (ascii "end_header\n")
  let num_vertices ← int32_expr nv
  let num_faces ← int32_expr nf
  let vertices_ptr ← Run.lift (vertices.data_ptr .Float)
  let colors_ptr ← Run.lift (colors.data_ptr .Byte)
  Run.loop (fun i _ => write_vertex vertices_ptr colors_ptr i) 0 num_vertices.toNat ()
  write_faces faces num_faces

/-- The files of the host: which paths can be opened for writing, and the
bytes of each existing file. -/
structure Disk where
  can_open : String → Bool
  file : String → Option (List Nat)

/-- The disk after a file was created or truncated and given its bytes. -/
def Disk.store (d : Disk) (path : String) (bytes : List Nat) : Disk :=
  { d with file := fun p => if p = path then some bytes else d.file p }

/-- What a call of `save_mesh_as_ply` leaves behind: how it ended, whether it
tried to open the destination, the disk afterwards, and what it did with the
stream (bytes sent, `int32_t` expressions computed, buffer ranges read). -/
structure Saved where
  result : Except Err Unit
  opened : Bool
  disk : Disk
  log : List Out

/-- Lines 82-85: the checks before anything else is done. -/
def save_checks (ndebug : Bool) (vertices faces colors : Tensor) : Except Err Unit := do
  CHECK_CONTIGUOUS vertices
  CHECK_CONTIGUOUS faces
  CHECK_CONTIGUOUS colors
  c_assert ndebug (colors.dtype == .Byte)

/-- The entry point `save_mesh_as_ply`.  The stream is opened without any
test of success: on a stream that failed to open every output operation is
ignored, and the rest of the function runs all the same.  A stream that
opened leaves on the disk the bytes sent to it, also when the call ends in an
exception. -/
def save_mesh_as_ply (ndebug : Bool) (filename : String) (vertices faces colors : Tensor)
    (disk : Disk) : Saved :=
  match save_checks ndebug vertices faces colors with
  | .error e => ⟨.error e, false, disk, []⟩
  | .ok _ =>
    let vertices := if vertices.is_cuda then vertices.to_cpu else vertices
    let faces := if faces.is_cuda then faces.to_cpu else faces
    let colors := if colors.is_cuda then colors.to_cpu else colors
    let r := ply_stream vertices faces colors
    ⟨r.result, true,
      if disk.can_open filename then disk.store filename (bytes_of r.out) else disk, r.out⟩

/-- What stays fixed while the density grid is filled. -/
def GridShape (sizes : List Nat) (cuda : Bool) (g : Tensor) : Prop :=
  g.sizes = sizes ∧ g.is_contiguous = true ∧ g.dtype = .Float ∧ g.is_cuda = cuda

/-! ## The file layout and a reference reader

The layout is written down from the specification of `writeMesh` (spec 6), not
from the writer; the theorems below compare the two. -/

/-- The header of a file with `n` vertices and `m` faces. -/
def ply_header (n m : Nat) : List Nat :=
  ascii "ply\n" ++ ascii "format binary_little_endian 1.0\n" ++
  ascii "element vertex " ++ ascii (toString n) ++ ascii "\n" ++
  ascii "property float x\n" ++ ascii "property float y\n" ++ ascii "property float z\n" ++
  ascii "property uchar red\n" ++ ascii "property uchar green\n" ++
  ascii "property uchar blue\n" ++
  ascii "element face " ++ ascii (toString m) ++ ascii "\n" ++
  ascii "property list int int vertex_index\n" ++ ascii "end_header\n"

/-- The 15-byte record of vertex `i`: three float32 values, then three color
bytes. -/
def vertex_record (vertices colors : Tensor) (i : Nat) : List Nat :=
  le_bytes 4 (vertices.word (3 * i)) ++ le_bytes 4 (vertices.word (3 * i + 1)) ++
  le_bytes 4 (vertices.word (3 * i + 2)) ++
  [colors.word (3 * i), colors.word (3 * i + 1), colors.word (3 * i + 2)]

/-- The 16-byte record of face `r`: the int32 value 3, then three int32
indices. -/
def face_record (faces : Tensor) (r : Nat) : List Nat :=
  le_bytes 4 3 ++ le_bytes 4 (faces.word (3 * r)) ++ le_bytes 4 (faces.word (3 * r + 1)) ++
  le_bytes 4 (faces.word (3 * r + 2))

/-- The whole file of a mesh with `n` vertices and `m` faces. -/
def ply_layout (vertices faces colors : Tensor) (n m : Nat) : List Nat :=
  ply_header n m ++ (List.range n).flatMap (vertex_record vertices colors) ++
  (List.range m).flatMap (face_record faces)

/-- What a reader gets out of a file: the two declared counts, and per vertex
its position (three float32 bit patterns) and color (three bytes), per face
its list of indices (int32 patterns). -/
structure PlyMesh where
  num_vertices : Nat
  num_faces : Nat
  positions : List (Nat × Nat × Nat)
  colors : List (Nat × Nat × Nat)
  faces : List (List Nat)
  deriving DecidableEq, Repr

/-- Split the input at its first newline. -/
def read_line : List Nat → Option (List Nat × List Nat)
  | [] => none
  | b :: bs =>
    if b = 10 then some ([], bs)
    else match read_line bs with
      | some (l, rest) => some (b :: l, rest)
      | none => none

/-- The number written by a string of decimal digits, given the value of the
digits read so far. -/
def parse_digits : Nat → List Nat → Option Nat
  | acc, [] => some acc
  | acc, b :: bs => if 48 ≤ b ∧ b ≤ 57 then parse_digits (10 * acc + (b - 48)) bs else none

/-- The number written by a non-empty string of decimal digits. -/
def parse_decimal (bs : List Nat) : Option Nat :=
  if bs = [] then none else parse_digits 0 bs

/-- Read one header line that must be exactly `text`. -/
def expect_line (text : String) (bs : List Nat) : Option (List Nat) :=
  match read_line bs with
  | some (l, rest) => if l = ascii text then some rest else none
  | none => none

/-- Read one header line made of `text` followed by a decimal count. -/
def count_line (text : String) (bs : List Nat) : Option (Nat × List Nat) :=
  match read_line bs with
  | some (l, rest) =>
    if l.take (ascii text).length = ascii text then
      match parse_decimal (l.drop (ascii text).length) with
      | some n => some (n, rest)
      | none => none
    else none
  | none => none

/-- The machine word held by little-endian bytes. -/
def le_word (bs : List Nat) : Nat := bs.foldr (fun b acc => b + 256 * acc) 0

/-- Read one machine word of four bytes. -/
def read_word : List Nat → Option (Nat × List Nat)
  | b0 :: b1 :: b2 :: b3 :: rest => some (le_word [b0, b1, b2, b3], rest)
  | _ => none

/-- Read `n` machine words of four bytes. -/
def read_words : Nat → List Nat → Option (List Nat × List Nat)
  | 0, bs => some ([], bs)
  | n + 1, bs =>
    match read_word bs with
    | some (w, rest) =>
      match read_words n rest with
      | some (ws, rest') => some (w :: ws, rest')
      | none => none
    | none => none

/-- Read one vertex record: `float x, y, z`, then `uchar red, green, blue`. -/
def read_vertex (bs : List Nat) : Option (((Nat × Nat × Nat) × (Nat × Nat × Nat)) × List Nat) :=
  match read_words 3 bs with
  | some ([x, y, z], r :: g :: b :: rest) => some (((x, y, z), (r, g, b)), rest)
  | _ => none

/-- Read `n` vertex records. -/
def read_vertices : Nat → List Nat →
    Option (List ((Nat × Nat × Nat) × (Nat × Nat × Nat)) × List Nat)
  | 0, bs => some ([], bs)
  | n + 1, bs =>
    match read_vertex bs with
    | some (v, rest) =>
      match read_vertices n rest with
      | some (vs, rest') => some (v :: vs, rest')
      | none => none
    | none => none

/-- Read one face record, a `list int int`: an int32 count of entries, then
that many int32 indices. -/
def read_face (bs : List Nat) : Option (List Nat × List Nat) :=
  match read_word bs with
  | some (count, rest) => if count < 2 ^ 31 then read_words count rest else none
  | none => none

/-- Read `m` face records. -/
def read_faces : Nat → List Nat → Option (List (List Nat) × List Nat)
  | 0, bs => some ([], bs)
  | m + 1, bs =>
    match read_face bs with
    | some (f, rest) =>
      match read_faces m rest with
      | some (fs, rest') => some (f :: fs, rest')
      | none => none
    | none => none

/-- Read header lines that must be exactly the given texts, in order. -/
def expect_lines : List String → List Nat → Option (List Nat)
  | [], bs => some bs
  | text :: texts, bs =>
    match expect_line text bs with
    | some rest => expect_lines texts rest
    | none => none

/-- Read the header: the fixed lines of the declared layout and, among them,
the two element counts. -/
def read_header (bs : List Nat) : Option (Nat × Nat × List Nat) :=
  match expect_lines ["ply", "format binary_little_endian 1.0"] bs with
  | none => none
  | some bs =>
    match count_line "element vertex " bs with
    | none => none
    | some (n, bs) =>
      match expect_lines ["property float x", "property float y", "property float z",
          "property uchar red", "property uchar green", "property uchar blue"] bs with
      | none => none
      | some bs =>
        match count_line "element face " bs with
        | none => none
        | some (m, bs) =>
          match expect_lines ["property list int int vertex_index", "end_header"] bs with
          | none => none
          | some bs => some (n, m, bs)

/-- A reference reader for the declared layout: it checks the header lines,
takes the two counts from them, and reads that many vertex and face records. -/
def read_ply (bs : List Nat) : Option PlyMesh :=
  match read_header bs with
  | none => none
  | some (n, m, bs) =>
    match read_vertices n bs with
    | none => none
    | some (vs, bs) =>
      match read_faces m bs with
      | none => none
      | some (fs, _) => some ⟨n, m, vs.map Prod.fst, vs.map Prod.snd, fs⟩

/-- The mesh held by three tensors of `n` vertices, `n` colors and `m` faces,
as a reader should deliver it. -/
def mesh_of (vertices faces colors : Tensor) (n m : Nat) : PlyMesh :=
  { num_vertices := n
    num_faces := m
    positions := (List.range n).map
      (fun i => (vertices.word (3 * i), vertices.word (3 * i + 1), vertices.word (3 * i + 2)))
    colors := (List.range n).map
      (fun i => (colors.word (3 * i), colors.word (3 * i + 1), colors.word (3 * i + 2)))
    faces := (List.range m).map
      (fun r => [faces.word (3 * r), faces.word (3 * r + 1), faces.word (3 * r + 2)]) }

/-- A mesh of `n` vertices and `m` faces as `save_mesh_as_ply` expects it:
`n x 3` float32 positions, `n x 3` uint8 colors, `m x 3` int32 faces, all
stored contiguously, with `3 n` and `4 m` representable as `int32_t`. -/
structure MeshInBounds (vertices faces colors : Tensor) (n m : Nat) : Prop where
  vertices_dtype : vertices.dtype = .Float
  vertices_sizes : vertices.sizes = [n, 3]
  vertices_contiguous : vertices.is_contiguous = true
  colors_dtype : colors.dtype = .Byte
  colors_sizes : colors.sizes = [n, 3]
  colors_contiguous : colors.is_contiguous = true
  faces_dtype : faces.dtype = .Int
  faces_sizes : faces.sizes = [m, 3]
  faces_contiguous : faces.is_contiguous = true
  vertices_bound : 3 * n ≤ 2 ^ 31 - 1
  faces_bound : 4 * m ≤ 2 ^ 31 - 1

/-! ## Concrete inputs -/

/-- A kernel that accepts every call and returns an empty list of tensors. -/
def okKernel : Kernel := fun _ _ _ _ _ => .ok []

/-- A contiguous host tensor with the given dtype, sizes and elements. -/
def hostTensor (dtype : ScalarType) (sizes : List Nat) (elem : Nat → Nat) : Tensor :=
  { dtype := dtype, sizes := sizes, is_contiguous := true, is_cuda := false, elem := elem }

/-- An evaluator that returns its first argument. -/
def firstCoord : Evaluator := fun x _ _ => .ok x

/-- A disk without files on which every path can be opened. -/
def emptyDisk : Disk := ⟨fun _ => true, fun _ => none⟩

/-- A disk without files on which no path can be opened. -/
def lockedDisk : Disk := ⟨fun _ => false, fun _ => none⟩

/-- A contiguous CUDA tensor with the given dtype, sizes and elements. -/
def deviceTensor (dtype : ScalarType) (sizes : List Nat) (elem : Nat → Nat) : Tensor :=
  { dtype := dtype, sizes := sizes, is_contiguous := true, is_cuda := true, elem := elem }

/-- The bit pattern of the float 1.0. -/
def one_f32 : F32 := 0x3F800000

/-- A call of `marching_cubes_func` on a lattice of 2 x 1 x 1 sample points,
in either build. -/
def run_2_1_1 (ndebug : Bool) : Run Event (List Tensor) :=
  marching_cubes_func ndebug true (fun _ w => w) okKernel
    (hostTensor .Float [2, 1, 1, 3] (fun p => p + 1)) 0 [0, 0, 0] [one_f32, one_f32, one_f32]
    firstCoord false

/-- A call of `marching_cubes_func` on a lattice of 1 x 1 x 2 sample points,
in either build. -/
def run_1_1_2 (ndebug : Bool) : Run Event (List Tensor) :=
  marching_cubes_func ndebug true (fun _ w => w) okKernel
    (hostTensor .Float [1, 1, 2, 3] (fun p => p + 1)) 0 [0, 0, 0] [one_f32, one_f32, one_f32]
    firstCoord false

/-- A call of `marching_cubes_func` on a single sample point whose `lower`
has two elements only, in either build. -/
def run_short_lower (ndebug : Bool) : Run Event (List Tensor) :=
  marching_cubes_func ndebug true (fun _ w => w) okKernel
    (hostTensor .Float [1, 1, 1, 3] (fun p => p + 1)) 0 [0, 0] [one_f32, one_f32, one_f32]
    firstCoord false

/-- Positions of 2^31 vertices. -/
def hugeVertices : Tensor := hostTensor .Float [2147483648, 3] (fun _ => 0)

/-- Colors of 2^31 vertices. -/
def hugeColors : Tensor := hostTensor .Byte [2147483648, 3] (fun _ => 0)

/-- An empty list of faces. -/
def noFaces : Tensor := hostTensor .Int [0, 3] (fun _ => 0)

/-- Positions of two vertices: the floats 1.0, 2.0, 3.0 and 0.0, -1.0, 0.5. -/
def twoVertices : Tensor :=
  hostTensor .Float [2, 3]
    (fun p => [0x3F800000, 0x40000000, 0x40400000, 0, 0xBF800000, 0x3F000000].getD p 0)

/-- Colors of two vertices. -/
def twoColors : Tensor := hostTensor .Byte [2, 3] (fun p => [255, 128, 0, 1, 2, 3].getD p 0)

/-- One face on the vertices 0, 1 and 0. -/
def oneFace : Tensor := hostTensor .Int [1, 3] (fun p => [0, 1, 0].getD p 0)

/-- Colors of two vertices held as float32 instead of uint8. -/
def floatColors : Tensor := hostTensor .Float [2, 3] (fun _ => one_f32)

/-- Positions of no vertex. -/
def noVertices : Tensor := hostTensor .Float [0, 3] (fun _ => 0)

/-- Colors of no vertex. -/
def noColors : Tensor := hostTensor .Byte [0, 3] (fun _ => 0)

/-- One row of two int32 indices: a face tensor of shape (1, 2). -/
def shortFace : Tensor := hostTensor .Int [1, 2] (fun p => [0, 1].getD p 0)

/-! ## What the writer is expected to do -/

/-- What one iteration of the vertex loop does on a mesh of `n` vertices
within the `int32_t` range: the offset `i * 3`, the read of three positions
and their bytes, the offset again, the read of three colors and their bytes. -/
def vertex_log (vertices colors : Tensor) (n i : Nat) : List Out :=
  [Out.int32 ((i : Int) * 3) ((i : Int) * 3), Out.read (3 * n) ((i : Int) * 3) 3] ++
    (le_bytes 4 (vertices.word (3 * i)) ++ le_bytes 4 (vertices.word (3 * i + 1)) ++
      le_bytes 4 (vertices.word (3 * i + 2))).map Out.byte ++
    [Out.int32 ((i : Int) * 3) ((i : Int) * 3), Out.read (3 * n) ((i : Int) * 3) 3] ++
    [colors.word (3 * i), colors.word (3 * i + 1), colors.word (3 * i + 2)].map Out.byte

/-- What the writer does before it turns to the faces, on `n` vertices and
`m` faces within the `int32_t` range: the header, the two counts, and the
iterations of the vertex loop. -/
def log_before_faces (vertices colors : Tensor) (n m : Nat) : List Out :=
  (ply_header n m).map Out.byte ++ [Out.int32 n n, Out.int32 m m] ++
    (List.range n).flatMap (vertex_log vertices colors n)

/-! ## Basic facts about runs -/

theorem Run.bind_eq {ω α β : Type} (x : Run ω α) (f : α → Run ω β) :
    (x >>= f) = Run.andThen x f := rfl

theorem Run.pure_eq {ω α : Type} (a : α) : (pure a : Run ω α) = Run.ret a := rfl

theorem Run.andThen_lift_ok {ω α β : Type} (a : α) (f : α → Run ω β) :
    Run.andThen (Run.lift (.ok a)) f = f a := by
  simp [Run.andThen, Run.lift]

theorem Run.andThen_lift_error {ω α β : Type} (e : Err) (f : α → Run ω β) :
    Run.andThen (Run.lift (.error e : Except Err α)) f = ⟨.error e, []⟩ := by
  simp [Run.andThen, Run.lift]

theorem Run.andThen_result_ok {ω α β : Type} (x : Run ω α) (f : α → Run ω β) (b : β)
    (h : (Run.andThen x f).result = .ok b) :
    ∃ a, x.result = .ok a ∧ (f a).result = .ok b := by
  unfold Run.andThen at h
  split at h
  · simp at h
  · rename_i a ha
    exact ⟨a, ha, h⟩

/-! ## `marching_cubes` -/

theorem CHECK_INPUT_not_contiguous (rc : Bool) (x : Tensor) (h : x.is_contiguous = false) :
    CHECK_INPUT rc x = .error .torchCheck := by
  simp [CHECK_INPUT, CHECK_CONTIGUOUS, h]

theorem CHECK_INPUT_cases (rc : Bool) (x : Tensor) :
    CHECK_INPUT rc x = .ok () ∨ CHECK_INPUT rc x = .error .torchCheck := by
  unfold CHECK_INPUT CHECK_CONTIGUOUS
  split
  · exact Or.inr rfl
  · split
    · exact Or.inl rfl
    · exact Or.inr rfl

/-- C4: a density grid whose rank is not 3, or that is not stored
contiguously, makes `marching_cubes` fail (with the error of a `TORCH_CHECK`)
and the call emits no event at all: the extraction kernel is never invoked.
This holds in either build. -/
theorem marching_cubes_rejects_bad_grid (ndebug requires_cuda : Bool) (wrapper : Kernel)
    (density_grid : Tensor) (thresh : F32) (lower upper : List F32) (verbose : Bool)
    (h : density_grid.ndimension ≠ 3 ∨ density_grid.is_contiguous = false) :
    (marching_cubes ndebug requires_cuda wrapper density_grid thresh lower upper verbose).result
        = .error .torchCheck ∧
      (marching_cubes ndebug requires_cuda wrapper density_grid thresh lower upper
        verbose).out.any Event.isKernelCall = false := by
  unfold marching_cubes
  simp only [Run.bind_eq]
  rcases h with h | h
  · rcases CHECK_INPUT_cases requires_cuda density_grid with hc | hc
    · rw [hc, Run.andThen_lift_ok]
      have : TORCH_CHECK (density_grid.ndimension == 3) = .error .torchCheck := by
        simp [TORCH_CHECK, h]
      rw [this, Run.andThen_lift_error]
      simp
    · rw [hc, Run.andThen_lift_error]
      simp
  · rw [CHECK_INPUT_not_contiguous requires_cuda density_grid h, Run.andThen_lift_error]
    simp

/-- Witness for C4: a two-dimensional grid, in the build with `NDEBUG`. -/
theorem marching_cubes_rejects_bad_grid_witness :
    (marching_cubes true false okKernel (hostTensor .Float [2, 2] (fun _ => 0)) 0 [0, 0, 0]
        [1, 1, 1] false).result = .error .torchCheck ∧
      (marching_cubes true false okKernel (hostTensor .Float [2, 2] (fun _ => 0)) 0 [0, 0, 0]
        [1, 1, 1] false).out.any Event.isKernelCall = false :=
  marching_cubes_rejects_bad_grid true false okKernel (hostTensor .Float [2, 2] (fun _ => 0)) 0
    [0, 0, 0] [1, 1, 1] false (Or.inl (by decide))

/-- Counterexample to C5: with `lower = (1, 1, 1)` and `upper = (0, 0, 0)`,
so that `lower[i] >= upper[i]` for every `i`, a call on a valid 2 x 2 x 2 grid
returns normally whenever the kernel does, whether or not `CHECK_INPUT` asks
for a CUDA tensor, with `assert` compiled in or out. -/
theorem marching_cubes_accepts_reversed_bounds :
    F32.ge one_f32 0 = true ∧ F32.lt one_f32 0 = false ∧
      (marching_cubes false true okKernel (deviceTensor .Float [2, 2, 2] (fun _ => 0)) 0
        [one_f32, one_f32, one_f32] [0, 0, 0] false).succeeded = true ∧
      (marching_cubes false false okKernel (deviceTensor .Float [2, 2, 2] (fun _ => 0)) 0
        [one_f32, one_f32, one_f32] [0, 0, 0] false).succeeded = true ∧
      (marching_cubes true true okKernel (deviceTensor .Float [2, 2, 2] (fun _ => 0)) 0
        [one_f32, one_f32, one_f32] [0, 0, 0] false).succeeded = true ∧
      (marching_cubes true false okKernel (deviceTensor .Float [2, 2, 2] (fun _ => 0)) 0
        [one_f32, one_f32, one_f32] [0, 0, 0] false).succeeded = true := by
  refine ⟨by decide, by decide, by rfl, by rfl, by rfl, by rfl⟩

theorem read_vec3_of_length (v : List F32) (h : v.length = 3) : read_vec3 v = .ok (vec3 v) := by
  simp [read_vec3, h]

/-- C5, amended: `marching_cubes` does not compare `lower` with `upper`.  For
every call in which `lower[i] < upper[i]` fails for some `i`, on a grid that
passes the checks and with bounds of three elements, the kernel is invoked
exactly once, with these bounds, and the call returns what the kernel
returns.  This holds in either build. -/
theorem marching_cubes_ignores_bound_order (ndebug requires_cuda : Bool) (wrapper : Kernel)
    (density_grid : Tensor) (thresh : F32) (lower upper : List F32) (verbose : Bool)
    (_hord : ∃ i, i < 3 ∧ F32.lt (lower.getD i 0) (upper.getD i 0) = false)
    (hchk : CHECK_INPUT requires_cuda density_grid = .ok ())
    (hdim : density_grid.ndimension = 3)
    (hl : lower.length = 3) (hu : upper.length = 3) :
    marching_cubes ndebug requires_cuda wrapper density_grid thresh lower upper verbose =
      ⟨wrapper density_grid thresh (vec3 lower) (vec3 upper) verbose,
        [.kernelCall density_grid thresh (vec3 lower) (vec3 upper) verbose]⟩ := by
  unfold marching_cubes
  simp only [Run.bind_eq, Run.pure_eq]
  have h1 : TORCH_CHECK (density_grid.ndimension == 3) = .ok () := by simp [TORCH_CHECK, hdim]
  have h2 : c_assert ndebug (lower.length == 3) = .ok () := by simp [c_assert, hl]
  have h3 : c_assert ndebug (upper.length == 3) = .ok () := by simp [c_assert, hu]
  rw [hchk, Run.andThen_lift_ok, h1, Run.andThen_lift_ok, h2, Run.andThen_lift_ok, h3,
    Run.andThen_lift_ok, read_vec3_of_length lower hl, Run.andThen_lift_ok,
    read_vec3_of_length upper hu, Run.andThen_lift_ok]
  simp only [Run.andThen, call_kernel, Run.ret]
  cases wrapper density_grid thresh (vec3 lower) (vec3 upper) verbose <;> rfl

/-- Witness for the amended C5: reversed bounds on a valid grid, in the build
with `NDEBUG`. -/
theorem marching_cubes_ignores_bound_order_witness :
    marching_cubes true true okKernel (deviceTensor .Float [2, 2, 2] (fun _ => 0)) 0
        [one_f32, one_f32, one_f32] [0, 0, 0] false =
      ⟨okKernel (deviceTensor .Float [2, 2, 2] (fun _ => 0)) 0
          (vec3 [one_f32, one_f32, one_f32]) (vec3 [0, 0, 0]) false,
        [.kernelCall (deviceTensor .Float [2, 2, 2] (fun _ => 0)) 0
          (vec3 [one_f32, one_f32, one_f32]) (vec3 [0, 0, 0]) false]⟩ :=
  marching_cubes_ignores_bound_order true true okKernel
    (deviceTensor .Float [2, 2, 2] (fun _ => 0)) 0 [one_f32, one_f32, one_f32] [0, 0, 0] false
    ⟨0, by decide, by decide⟩ rfl rfl rfl rfl

/-! ## `marching_cubes_func` -/

/-- C1, the code at two inputs, in either build.  On a lattice of 2 x 1 x 1
sample points the call succeeds and the one grid handed to the kernel has
shape (2, 1, 2), not (2, 1, 1).  On a lattice of 1 x 1 x 2 sample points the
grid has shape (1, 1, 1): the write of entry (0, 0, 1) raises an index error
after one evaluation, and the kernel is never invoked. -/
theorem marching_cubes_func_grid_shape_at_inputs (ndebug : Bool) :
    (run_2_1_1 ndebug).succeeded = true ∧
      ((run_2_1_1 ndebug).out.filterMap Event.kernelGrid).map Tensor.sizes = [[2, 1, 2]] ∧
      (run_1_1_2 ndebug).failure = some .indexError ∧
      (run_1_1_2 ndebug).out.map Event.isGridWrite = [false, true, false] ∧
      (run_1_1_2 ndebug).out.any Event.isKernelCall = false := by
  cases ndebug <;> refine ⟨by rfl, by rfl, by rfl, by rfl, by rfl⟩

/-- C7, the code at an input: with a `lower` of two elements the call on a
single sample point invokes the evaluator once and writes its density into
the grid before anything looks at `lower`.  Only then does the build without
`NDEBUG` end in the failed `assert`; the build with `NDEBUG` goes on to read
`lower[2]` past the end of the vector. -/
theorem marching_cubes_func_samples_before_bounds_check :
    (run_short_lower false).failure = some .assertFailed ∧
      (run_short_lower false).out.map Event.isEvalCall = [true, false] ∧
      (run_short_lower false).out.map Event.isGridWrite = [false, true] ∧
      (run_short_lower true).failure = some .undefinedBehaviour ∧
      (run_short_lower true).out.map Event.isEvalCall = [true, false] ∧
      (run_short_lower true).out.map Event.isGridWrite = [false, true] := by
  refine ⟨by rfl, by rfl, by rfl, by rfl, by rfl, by rfl⟩

/-- A property of the loop variables that every successful iteration keeps
holds after a successful loop. -/
theorem Run.loop_invariant {ω σ : Type} (P : σ → Prop) (body : Nat → σ → Run ω σ)
    (hbody : ∀ i s s', P s → (body i s).result = .ok s' → P s') :
    ∀ (count start : Nat) (s s' : σ), P s →
      (Run.loop body start count s).result = .ok s' → P s' := by
  intro count
  induction count with
  | zero =>
    intro start s s' hs h
    simp [Run.loop, Run.ret] at h
    exact h ▸ hs
  | succ n ih =>
    intro start s s' hs h
    unfold Run.loop at h
    obtain ⟨a, ha, h'⟩ := Run.andThen_result_ok _ _ _ h
    exact ih (start + 1) a s' (hbody start s a hs ha) h'

theorem index_put_keeps_shape (sizes : List Nat) (cuda : Bool) (g g' : Tensor) (idx : List Nat)
    (v : Nat) (hg : GridShape sizes cuda g) (h : g.index_put idx v = .ok g') :
    GridShape sizes cuda g' := by
  unfold Tensor.index_put at h
  split at h
  · injection h with h
    subst h
    exact hg
  · simp at h

theorem sample_one_keeps_shape (sizes : List Nat) (cuda : Bool) (cvt : ScalarType → Nat → F32)
    (func : Evaluator) (sample_points : Tensor) (i j k : Nat) (g g' : Tensor)
    (hg : GridShape sizes cuda g)
    (h : (sample_one cvt func sample_points i j k g).result = .ok g') :
    GridShape sizes cuda g' := by
  unfold sample_one at h
  simp only [Run.bind_eq, Run.pure_eq] at h
  obtain ⟨_, _, h⟩ := Run.andThen_result_ok _ _ _ h
  obtain ⟨_, _, h⟩ := Run.andThen_result_ok _ _ _ h
  obtain ⟨_, _, h⟩ := Run.andThen_result_ok _ _ _ h
  obtain ⟨_, _, h⟩ := Run.andThen_result_ok _ _ _ h
  obtain ⟨_, _, h⟩ := Run.andThen_result_ok _ _ _ h
  obtain ⟨_, _, h⟩ := Run.andThen_result_ok _ _ _ h
  obtain ⟨g1, hput, h⟩ := Run.andThen_result_ok _ _ _ h
  obtain ⟨_, _, h⟩ := Run.andThen_result_ok _ _ _ h
  simp only [Run.ret] at h
  injection h with h
  subst h
  exact index_put_keeps_shape sizes cuda g g1 _ _ hg hput

/-- The grid that `marching_cubes_func` builds has the extents `size(0)`,
`size(1)`, `size(0)` of the sample points, whatever `size(2)` is. -/
theorem build_density_grid_extents (cvt : ScalarType → Nat → F32) (func : Evaluator)
    (sample_points g : Tensor) (h : (build_density_grid cvt func sample_points).result = .ok g) :
    ∃ n0 n1, sample_points.size 0 = .ok n0 ∧ sample_points.size 1 = .ok n1 ∧
      GridShape [n0, n1, n0] sample_points.is_cuda g := by
  unfold build_density_grid at h
  simp only [Run.bind_eq] at h
  obtain ⟨n0, h0, h⟩ := Run.andThen_result_ok _ _ _ h
  obtain ⟨n1, h1, h⟩ := Run.andThen_result_ok _ _ _ h
  obtain ⟨n2, _, h⟩ := Run.andThen_result_ok _ _ _ h
  refine ⟨n0, n1, h0, h1, ?_⟩
  refine Run.loop_invariant (GridShape [n0, n1, n0] sample_points.is_cuda) _ ?_ n0 0
    (Tensor.zeros [n0, n1, n0] .Float sample_points.is_cuda) g ⟨rfl, rfl, rfl, rfl⟩ h
  intro i s s' hs hi
  obtain ⟨_, _, hi⟩ := Run.andThen_result_ok _ _ _ hi
  refine Run.loop_invariant (GridShape [n0, n1, n0] sample_points.is_cuda) _ ?_ n1 0 s s' hs hi
  intro j t t' ht hj
  obtain ⟨_, _, hj⟩ := Run.andThen_result_ok _ _ _ hj
  refine Run.loop_invariant (GridShape [n0, n1, n0] sample_points.is_cuda) _ ?_ n2 0 t t' ht hj
  intro k q q' hq hk
  exact sample_one_keeps_shape _ _ cvt func sample_points i j k q q' hq hk

/-- The grid that `marching_cubes_func` builds is a contiguous float tensor
of rank 3, on the device of the sample points. -/
theorem build_density_grid_shape (cvt : ScalarType → Nat → F32) (func : Evaluator)
    (sample_points g : Tensor) (h : (build_density_grid cvt func sample_points).result = .ok g) :
    g.ndimension = 3 ∧ g.is_contiguous = true ∧ g.dtype = .Float ∧
      g.is_cuda = sample_points.is_cuda := by
  obtain ⟨n0, n1, _, _, hs, hc, hd, hdev⟩ :=
    build_density_grid_extents cvt func sample_points g h
  exact ⟨by simp [Tensor.ndimension, hs], hc, hd, hdev⟩

theorem to_cuda_ok (cuda_available : Bool) (g gc : Tensor) (h : g.to_cuda cuda_available = .ok gc) :
    gc.is_cuda = true ∧ gc.sizes = g.sizes ∧ gc.is_contiguous = g.is_contiguous ∧
      gc.dtype = g.dtype ∧ gc.elem = g.elem := by
  unfold Tensor.to_cuda at h
  split at h
  · injection h with h
    subst h
    simp [*]
  · split at h
    · injection h with h
      subst h
      simp
    · simp at h

/-- C8: whenever `marching_cubes_func` succeeds with result `r`, the grid it
built and moved to the CUDA device passes every check of `marching_cubes`
(`CHECK_INPUT`, with or without its device test, and the rank test), and
`marching_cubes` called with that grid and the same threshold, bounds and
verbosity returns the same `r`.  This holds in either build. -/
theorem marching_cubes_func_delegates (ndebug cuda_available requires_cuda : Bool)
    (cvt : ScalarType → Nat → F32) (wrapper : Kernel) (sample_points : Tensor) (thresh : F32)
    (lower upper : List F32) (func : Evaluator) (verbose : Bool) (r : List Tensor)
    (h : (marching_cubes_func ndebug cuda_available cvt wrapper sample_points thresh lower upper
      func verbose).result = .ok r) :
    ∃ g gc, (build_density_grid cvt func sample_points).result = .ok g ∧
      g.to_cuda cuda_available = .ok gc ∧
      CHECK_INPUT requires_cuda gc = .ok () ∧
      TORCH_CHECK (gc.ndimension == 3) = .ok () ∧
      (marching_cubes ndebug requires_cuda wrapper gc thresh lower upper verbose).result
        = .ok r := by
  unfold marching_cubes_func at h
  simp only [Run.bind_eq, Run.pure_eq] at h
  obtain ⟨_, _, h⟩ := Run.andThen_result_ok _ _ _ h
  obtain ⟨_, _, h⟩ := Run.andThen_result_ok _ _ _ h
  obtain ⟨g, hg, h⟩ := Run.andThen_result_ok _ _ _ h
  obtain ⟨_, hl, h⟩ := Run.andThen_result_ok _ _ _ h
  obtain ⟨_, hu, h⟩ := Run.andThen_result_ok _ _ _ h
  obtain ⟨l, hrl, h⟩ := Run.andThen_result_ok _ _ _ h
  obtain ⟨u, hru, h⟩ := Run.andThen_result_ok _ _ _ h
  obtain ⟨gc, hgc, h⟩ := Run.andThen_result_ok _ _ _ h
  obtain ⟨res, hres, h⟩ := Run.andThen_result_ok _ _ _ h
  simp only [Run.ret] at h
  injection h with h
  subst h
  simp only [Run.lift] at hgc hl hu hrl hru
  obtain ⟨hdim, hcont, _, _⟩ := build_density_grid_shape cvt func sample_points g hg
  obtain ⟨hcuda, hsz, hct, _, _⟩ := to_cuda_ok cuda_available g gc hgc
  have hchk : CHECK_INPUT requires_cuda gc = .ok () := by
    simp [CHECK_INPUT, CHECK_CONTIGUOUS, hcuda, hct, hcont]
  have hrank : TORCH_CHECK (gc.ndimension == 3) = .ok () := by
    simp [TORCH_CHECK, Tensor.ndimension, hsz, ← hdim]
  refine ⟨g, gc, hg, hgc, hchk, hrank, ?_⟩
  unfold marching_cubes
  simp only [Run.bind_eq, Run.pure_eq]
  rw [hchk, Run.andThen_lift_ok, hrank, Run.andThen_lift_ok, hl, Run.andThen_lift_ok, hu,
    Run.andThen_lift_ok, hrl, Run.andThen_lift_ok, hru, Run.andThen_lift_ok]
  simp only [Run.andThen, hres, Run.ret]

/-- Witness for C8: the call on a lattice of 2 x 1 x 1 sample points succeeds
with the empty list the kernel returns (build with `NDEBUG`). -/
theorem marching_cubes_func_delegates_witness :
    ∃ g gc, (build_density_grid (fun _ w => w) firstCoord
        (hostTensor .Float [2, 1, 1, 3] (fun p => p + 1))).result = .ok g ∧
      g.to_cuda true = .ok gc ∧
      CHECK_INPUT true gc = .ok () ∧
      TORCH_CHECK (gc.ndimension == 3) = .ok () ∧
      (marching_cubes true true okKernel gc 0 [0, 0, 0] [one_f32, one_f32, one_f32] false).result
        = .ok [] :=
  marching_cubes_func_delegates true true true (fun _ w => w) okKernel
    (hostTensor .Float [2, 1, 1, 3] (fun p => p + 1)) 0 [0, 0, 0] [one_f32, one_f32, one_f32]
    firstCoord false [] rfl

/-! ## `save_mesh_as_ply` -/

theorem toInt32_of_lt (n : Int) (h0 : 0 ≤ n) (h : n < 2 ^ 31) : toInt32 n = n := by
  unfold toInt32
  norm_num at h ⊢
  omega

theorem word_lt (t : Tensor) (i : Nat) : t.word i < 2 ^ (8 * t.dtype.itemsize) := by
  unfold Tensor.word
  exact Nat.mod_lt _ (by positivity)

theorem le_bytes_one (w : Nat) (h : w < 256) : le_bytes 1 w = [w] := by
  simp [le_bytes, List.range_succ, Nat.mod_eq_of_lt h]

theorem le_bytes_four (w : Nat) :
    le_bytes 4 w = [w % 256, w / 256 % 256, w / 65536 % 256, w / 16777216 % 256] := by
  simp [le_bytes, List.range_succ]

/-- A loop whose iterations all return, each emitting `g i`, returns and
emits the `g i` in order. -/
theorem Run.loop_unit_emits {ω : Type} (body : Nat → Unit → Run ω Unit) (g : Nat → List ω) :
    ∀ (count start : Nat), (∀ i, start ≤ i → i < start + count → body i () = ⟨.ok (), g i⟩) →
      Run.loop body start count () = ⟨.ok (), (List.range' start count).flatMap g⟩ := by
  intro count
  induction count with
  | zero =>
    intro start _
    simp [Run.loop, Run.ret]
  | succ n ih =>
    intro start h
    unfold Run.loop
    rw [h start (le_refl _) (by omega)]
    simp only [Run.andThen]
    rw [ih (start + 1) (fun i h1 h2 => h i (by omega) (by omega))]
    simp [List.range'_succ]

theorem Ptr.read_nat (p : Ptr) (off count : Nat) (h : off + count ≤ p.len) :
    p.read (off : Int) (count : Int) =
      .ok ((List.range count).flatMap (fun k => le_bytes p.itemsize (p.word (off + k)))) := by
  have hb : p.in_bounds (off : Int) (count : Int) = true := by
    simp only [Ptr.in_bounds, decide_eq_true_eq]
    omega
  simp [Ptr.read, hb]

theorem Ptr.read_three (p : Ptr) (i : Nat) (h : 3 * i + 3 ≤ p.len) :
    p.read ((i : Int) * 3) 3 =
      .ok (le_bytes p.itemsize (p.word (3 * i)) ++ le_bytes p.itemsize (p.word (3 * i + 1)) ++
        le_bytes p.itemsize (p.word (3 * i + 2))) := by
  have h1 : (i : Int) * 3 = ((3 * i : Nat) : Int) := by
    push_cast
    ring
  rw [h1]
  have h2 := Ptr.read_nat p (3 * i) 3 (by omega)
  simp only [Nat.cast_ofNat] at h2
  rw [h2]
  simp [List.range_succ]

theorem write_from_ok (p : Ptr) (off count : Int) (bs : List Nat)
    (h : p.read off count = .ok bs) :
    write_from p off count = ⟨.ok (), Out.read p.len off count :: bs.map Out.byte⟩ := by
  simp [write_from, h, Run.andThen, Run.emit, Run.lift, put]

theorem write_from_error (p : Ptr) (off count : Int) (e : Err)
    (h : p.read off count = .error e) :
    write_from p off count = ⟨.error e, [Out.read p.len off count]⟩ := by
  simp [write_from, h, Run.andThen, Run.emit, Run.lift]

theorem Run.andThen_mk_ok {ω α β : Type} (a : α) (ws : List ω) (f : α → Run ω β) :
    Run.andThen ⟨.ok a, ws⟩ f = Run.after ws (f a) := rfl

theorem andThen_put {β : Type} (ws : List Nat) (f : Unit → Run Out β) :
    Run.andThen (put ws) f = Run.after (ws.map Out.byte) (f ()) := rfl

theorem andThen_int32_expr {β : Type} (x : Int) (f : Int → Run Out β) :
    Run.andThen (int32_expr x) f = Run.after [Out.int32 x (toInt32 x)] (f (toInt32 x)) := rfl

theorem Run.after_mk {ω α : Type} (ws xs : List ω) (r : Except Err α) :
    Run.after ws ⟨r, xs⟩ = ⟨r, ws ++ xs⟩ := rfl

theorem Run.after_after {ω α : Type} (ws xs : List ω) (x : Run ω α) :
    Run.after ws (Run.after xs x) = Run.after (ws ++ xs) x := by
  simp [Run.after]

theorem Run.after_congr {ω α : Type} (ws xs : List ω) (x : Run ω α) (h : ws = xs) :
    Run.after ws x = Run.after xs x := by
  rw [h]

/-- One iteration of the vertex loop on buffers of `3 n` elements. -/
theorem write_vertex_eq (vertices colors : Tensor) (n i : Nat) (hi : i < n)
    (hcd : colors.dtype = .Byte) (hn : 3 * n ≤ 2 ^ 31 - 1) :
    write_vertex ⟨4, 3 * n, vertices.word⟩ ⟨1, 3 * n, colors.word⟩ i =
      ⟨.ok (), vertex_log vertices colors n i⟩ := by
  have hoff : toInt32 ((i : Int) * 3) = (i : Int) * 3 :=
    toInt32_of_lt _ (by omega) (by norm_num at hn ⊢; omega)
  have hb : ∀ x, colors.word x < 256 := by
    intro x
    have := word_lt colors x
    rw [hcd] at this
    exact this
  unfold write_vertex
  simp only [Run.bind_eq]
  rw [andThen_int32_expr, hoff,
    write_from_ok _ _ _ _ (Ptr.read_three ⟨4, 3 * n, vertices.word⟩ i (by simp only; omega)),
    Run.andThen_mk_ok, andThen_int32_expr, hoff,
    write_from_ok _ _ _ _ (Ptr.read_three ⟨1, 3 * n, colors.word⟩ i (by simp only; omega))]
  simp [Run.after, vertex_log, le_bytes_one _ (hb _)]

/-- The writer up to the faces, on `n` vertices whose buffers hold `3 n`
elements: it does what `log_before_faces` lists and goes on to the faces. -/
theorem ply_stream_before_faces (vertices faces colors : Tensor) (n m : Nat)
    (hv0 : vertices.size 0 = .ok n) (hvd : vertices.dtype = .Float)
    (hvn : vertices.numel = 3 * n) (hcd : colors.dtype = .Byte) (hcn : colors.numel = 3 * n)
    (hf0 : faces.size 0 = .ok m) (hn : 3 * n ≤ 2 ^ 31 - 1) (hm : 4 * m ≤ 2 ^ 31 - 1) :
    ply_stream vertices faces colors =
      Run.after (log_before_faces vertices colors n m) (write_faces faces (m : Int)) := by
  have hnv : toInt32 (n : Int) = (n : Int) :=
    toInt32_of_lt _ (by omega) (by norm_num at hn ⊢; omega)
  have hnf : toInt32 (m : Int) = (m : Int) :=
    toInt32_of_lt _ (by omega) (by norm_num at hm ⊢; omega)
  have hvp : vertices.data_ptr .Float = .ok ⟨4, 3 * n, vertices.word⟩ := by
    simp [Tensor.data_ptr, hvd, hvn, ScalarType.itemsize]
  have hcp : colors.data_ptr .Byte = .ok ⟨1, 3 * n, colors.word⟩ := by
    simp [Tensor.data_ptr, hcd, hcn, ScalarType.itemsize]
  have hloop : Run.loop (fun (i : Nat) (_ : Unit) =>
      write_vertex ⟨4, 3 * n, vertices.word⟩ ⟨1, 3 * n, colors.word⟩ i) 0 n () =
      ⟨.ok (), (List.range n).flatMap (vertex_log vertices colors n)⟩ := by
    rw [Run.loop_unit_emits _ (vertex_log vertices colors n) n 0, List.range_eq_range']
    intro i _ hi
    exact write_vertex_eq vertices colors n i (by omega) hcd hn
  unfold ply_stream
  simp only [Run.bind_eq, hv0, hf0, hvp, hcp, Run.andThen_lift_ok]
  repeat rw [andThen_put]
  rw [andThen_int32_expr, hnv, andThen_int32_expr, hnf, Int.toNat_ofNat, hloop,
    Run.andThen_mk_ok]
  repeat rw [Run.after_after]
  apply Run.after_congr
  simp only [log_before_faces, ply_header, List.map_append, List.append_assoc,
    List.singleton_append, List.cons_append, List.nil_append]

/-- The rows of `cat({3, faces}, 1)` for faces of shape `(m, 3)`. -/
theorem padded_faces_eq (faces : Tensor) (m : Nat) (hs : faces.sizes = [m, 3]) :
    ∃ head padded, faces_head (m : Int) = .ok head ∧ cat1 head faces = .ok padded ∧
      padded.dtype = promoteTypes .Int faces.dtype ∧ padded.is_contiguous = true ∧
      padded.numel = 4 * m ∧
      (faces.dtype = .Int →
        ∀ r, padded.word (4 * r) = 3 ∧ padded.word (4 * r + 1) = faces.word (3 * r) ∧
          padded.word (4 * r + 2) = faces.word (3 * r + 1) ∧
          padded.word (4 * r + 3) = faces.word (3 * r + 2)) := by
  refine ⟨_, _, by simp [faces_head]; rfl, by simp [cat1, hs]; rfl, rfl, rfl,
    by simp [Tensor.numel]; ring, ?_⟩
  intro hd r
  have e0 : (4 * r) % 4 = 0 := by omega
  have e1 : (4 * r + 1) % 4 = 1 := by omega
  have e2 : (4 * r + 2) % 4 = 2 := by omega
  have e3 : (4 * r + 3) % 4 = 3 := by omega
  have d0 : (4 * r) / 4 = r := by omega
  have d1 : (4 * r + 1) / 4 = r := by omega
  have d2 : (4 * r + 2) / 4 = r := by omega
  have d3 : (4 * r + 3) / 4 = r := by omega
  have c0 : r * 3 = 3 * r := by ring
  simp [Tensor.word, promoteTypes, hd, ScalarType.itemsize, e0, e1, e2, e3, d0, d1, d2, d3, c0]

theorem range_four_mul_flatMap {α : Type} (g : Nat → List α) (m : Nat) :
    (List.range (4 * m)).flatMap g =
      (List.range m).flatMap
        (fun r => g (4 * r) ++ g (4 * r + 1) ++ g (4 * r + 2) ++ g (4 * r + 3)) := by
  induction m with
  | zero => simp
  | succ n ih =>
    have : 4 * (n + 1) = 4 * n + 1 + 1 + 1 + 1 := by ring
    rw [this]
    simp only [List.range_succ, List.flatMap_append, ih]
    simp

/-- The faces part of the writer on faces of shape `(m, 3)`: when the padded
tensor is not int32 the call raises before anything is read; otherwise
`num_faces * 4` is computed exactly, the `4 m` padded words are read, and for
int32 faces their bytes are the face records. -/
theorem write_faces_cases (faces : Tensor) (m : Nat) (hs : faces.sizes = [m, 3])
    (hm : 4 * m ≤ 2 ^ 31 - 1) :
    (promoteTypes .Int faces.dtype ≠ .Int ∧
        write_faces faces (m : Int) = ⟨.error .runtimeError, []⟩) ∨
      (∃ bs, write_faces faces (m : Int) =
          ⟨.ok (), Out.int32 ((m : Int) * 4) ((m : Int) * 4) ::
            Out.read (4 * m) 0 ((m : Int) * 4) :: bs.map Out.byte⟩ ∧
        (faces.dtype = .Int → bs = (List.range m).flatMap (face_record faces))) := by
  obtain ⟨head, padded, hhead, hcat, hpd, hpc, hpn, hpw⟩ := padded_faces_eq faces m hs
  have hchk : CHECK_CONTIGUOUS padded = .ok () := by simp [CHECK_CONTIGUOUS, hpc]
  by_cases hp : promoteTypes .Int faces.dtype = .Int
  · right
    have hpp : padded.data_ptr .Int = .ok ⟨4, 4 * m, padded.word⟩ := by
      simp [Tensor.data_ptr, hpd, hp, hpn, ScalarType.itemsize]
    have hcount : toInt32 ((m : Int) * 4) = (m : Int) * 4 :=
      toInt32_of_lt _ (by omega) (by norm_num at hm ⊢; omega)
    have hcast : (m : Int) * 4 = ((4 * m : Nat) : Int) := by
      push_cast
      ring
    have hread : Ptr.read ⟨4, 4 * m, padded.word⟩ 0 ((m : Int) * 4) =
        .ok ((List.range (4 * m)).flatMap (fun k => le_bytes 4 (padded.word k))) := by
      rw [hcast]
      have := Ptr.read_nat ⟨4, 4 * m, padded.word⟩ 0 (4 * m) (by simp)
      simp only [Nat.cast_zero, Nat.zero_add] at this
      exact this
    refine ⟨(List.range (4 * m)).flatMap (fun k => le_bytes 4 (padded.word k)), ?_, ?_⟩
    · unfold write_faces
      simp only [Run.bind_eq]
      rw [hhead, Run.andThen_lift_ok, hcat, Run.andThen_lift_ok, hchk, Run.andThen_lift_ok, hpp,
        Run.andThen_lift_ok, andThen_int32_expr, hcount, write_from_ok _ _ _ _ hread,
        Run.after_mk]
      rfl
    · intro hd
      rw [range_four_mul_flatMap]
      show _ = (List.range m).flatMap (fun r => face_record faces r)
      simp [face_record, hpw hd]
  · left
    refine ⟨hp, ?_⟩
    have hpp : padded.data_ptr .Int = .error .runtimeError := by
      simp [Tensor.data_ptr, hpd, hp]
    unfold write_faces
    simp only [Run.bind_eq]
    rw [hhead, Run.andThen_lift_ok, hcat, Run.andThen_lift_ok, hchk, Run.andThen_lift_ok, hpp,
      Run.andThen_lift_error]

theorem all_safe_map_byte (bs : List Nat) : (bs.map Out.byte).all Out.safe = true := by
  simp [List.all_eq_true, Out.safe]

theorem bytes_of_map_byte (bs : List Nat) : bytes_of (bs.map Out.byte) = bs := by
  induction bs with
  | nil => rfl
  | cons b bs ih =>
    simp only [bytes_of, List.map_cons, List.filterMap_cons, Out.byte?] at ih ⊢
    rw [ih]

theorem bytes_of_append (xs ys : List Out) : bytes_of (xs ++ ys) = bytes_of xs ++ bytes_of ys := by
  simp [bytes_of]

theorem bytes_of_flatMap (g : Nat → List Out) (xs : List Nat) :
    bytes_of (xs.flatMap g) = xs.flatMap (fun i => bytes_of (g i)) := by
  induction xs with
  | nil => rfl
  | cons x xs ih => simp only [List.flatMap_cons, bytes_of_append, ih]

theorem vertex_log_safe (vertices colors : Tensor) (n i : Nat) (hi : i < n) :
    (vertex_log vertices colors n i).all Out.safe = true := by
  have hr : Out.safe (Out.read (3 * n) ((i : Int) * 3) 3) = true := by
    simp only [Out.safe, decide_eq_true_eq]
    omega
  have hx : Out.safe (Out.int32 ((i : Int) * 3) ((i : Int) * 3)) = true := by
    simp [Out.safe]
  simp only [vertex_log, List.all_append, all_safe_map_byte, List.all_cons, List.all_nil, hr, hx,
    Bool.and_self, Bool.and_true]

theorem vertex_log_bytes (vertices colors : Tensor) (n i : Nat) :
    bytes_of (vertex_log vertices colors n i) = vertex_record vertices colors i := by
  simp only [vertex_log, bytes_of_append, bytes_of_map_byte, vertex_record]
  simp [bytes_of, Out.byte?]

theorem log_before_faces_safe (vertices colors : Tensor) (n m : Nat) :
    (log_before_faces vertices colors n m).all Out.safe = true := by
  have hv : ((List.range n).flatMap (vertex_log vertices colors n)).all Out.safe = true := by
    rw [List.all_eq_true]
    intro e he
    obtain ⟨i, hi, hei⟩ := List.mem_flatMap.mp he
    exact List.all_eq_true.mp (vertex_log_safe vertices colors n i (List.mem_range.mp hi)) e hei
  have hn : Out.safe (Out.int32 (n : Int) (n : Int)) = true := by simp [Out.safe]
  have hm : Out.safe (Out.int32 (m : Int) (m : Int)) = true := by simp [Out.safe]
  simp only [log_before_faces, List.all_append, all_safe_map_byte, hv, List.all_cons,
    List.all_nil, hn, hm, Bool.and_self, Bool.and_true]

theorem log_before_faces_bytes (vertices colors : Tensor) (n m : Nat) :
    bytes_of (log_before_faces vertices colors n m) =
      ply_header n m ++ (List.range n).flatMap (vertex_record vertices colors) := by
  simp only [log_before_faces, bytes_of_append, bytes_of_map_byte, bytes_of_flatMap,
    vertex_log_bytes]
  simp [bytes_of, Out.byte?]

theorem host_size (t : Tensor) (d : Nat) :
    (if t.is_cuda then t.to_cpu else t).size d = t.size d := by
  split <;> rfl

theorem host_dtype (t : Tensor) : (if t.is_cuda then t.to_cpu else t).dtype = t.dtype := by
  split <;> rfl

theorem host_sizes (t : Tensor) : (if t.is_cuda then t.to_cpu else t).sizes = t.sizes := by
  split <;> rfl

theorem host_numel (t : Tensor) : (if t.is_cuda then t.to_cpu else t).numel = t.numel := by
  split <;> rfl

theorem host_word (t : Tensor) : (if t.is_cuda then t.to_cpu else t).word = t.word := by
  split <;> rfl

theorem vertex_log_host (vertices colors : Tensor) (n : Nat) :
    vertex_log (if vertices.is_cuda then vertices.to_cpu else vertices)
        (if colors.is_cuda then colors.to_cpu else colors) n =
      vertex_log vertices colors n := by
  funext i
  simp only [vertex_log, host_word]

theorem save_checks_ok (ndebug : Bool) (vertices faces colors : Tensor)
    (hv : vertices.is_contiguous = true) (hf : faces.is_contiguous = true)
    (hc : colors.is_contiguous = true) (hd : ndebug = true ∨ colors.dtype = .Byte) :
    save_checks ndebug vertices faces colors = .ok () := by
  rcases hd with hd | hd <;>
    simp [save_checks, CHECK_CONTIGUOUS, c_assert, hv, hf, hc, hd, bind, Except.bind]

theorem save_checks_error (ndebug : Bool) (vertices faces colors : Tensor) (e : Err)
    (h : save_checks ndebug vertices faces colors = .error e) :
    e = .torchCheck ∨ e = .assertFailed := by
  unfold save_checks CHECK_CONTIGUOUS c_assert at h
  cases hv : vertices.is_contiguous <;> cases hf : faces.is_contiguous <;>
    cases hc : colors.is_contiguous <;>
    simp [bind, Except.bind, hv, hf, hc] at h
  all_goals first
    | exact Or.inl h.symm
    | (split at h
       · simp at h
       · injection h with h
         exact Or.inr h.symm)

/-- Once the checks are passed the call opens the stream, runs the writer on
the host tensors, and leaves on the disk the bytes the stream was sent. -/
theorem save_mesh_as_ply_run (ndebug : Bool) (filename : String)
    (vertices faces colors : Tensor) (disk : Disk)
    (h : save_checks ndebug vertices faces colors = .ok ()) :
    save_mesh_as_ply ndebug filename vertices faces colors disk =
      ⟨(ply_stream (if vertices.is_cuda then vertices.to_cpu else vertices)
          (if faces.is_cuda then faces.to_cpu else faces)
          (if colors.is_cuda then colors.to_cpu else colors)).result, true,
        if disk.can_open filename then
          disk.store filename (bytes_of (ply_stream
            (if vertices.is_cuda then vertices.to_cpu else vertices)
            (if faces.is_cuda then faces.to_cpu else faces)
            (if colors.is_cuda then colors.to_cpu else colors)).out)
        else disk,
        (ply_stream (if vertices.is_cuda then vertices.to_cpu else vertices)
          (if faces.is_cuda then faces.to_cpu else faces)
          (if colors.is_cuda then colors.to_cpu else colors)).out⟩ := by
  unfold save_mesh_as_ply
  rw [h]

/-- The writer on host copies of tensors that hold `3 n` positions, `3 n`
color bytes and faces of shape `(m, 3)`, within the `int32_t` range: it does
what `log_before_faces` lists, then the faces part. -/
theorem ply_stream_on_host (vertices faces colors : Tensor) (n m : Nat)
    (hv0 : vertices.size 0 = .ok n) (hvd : vertices.dtype = .Float)
    (hvn : vertices.numel = 3 * n) (hcd : colors.dtype = .Byte) (hcn : colors.numel = 3 * n)
    (hfs : faces.sizes = [m, 3]) (hn : 3 * n ≤ 2 ^ 31 - 1) (hm : 4 * m ≤ 2 ^ 31 - 1) :
    ply_stream (if vertices.is_cuda then vertices.to_cpu else vertices)
        (if faces.is_cuda then faces.to_cpu else faces)
        (if colors.is_cuda then colors.to_cpu else colors) =
      Run.after (log_before_faces vertices colors n m)
        (write_faces (if faces.is_cuda then faces.to_cpu else faces) (m : Int)) := by
  have hf0 : (if faces.is_cuda then faces.to_cpu else faces).size 0 = .ok m := by
    simp [Tensor.size, host_sizes, hfs]
  rw [ply_stream_before_faces _ _ _ n m (by rw [host_size]; exact hv0)
    (by rw [host_dtype]; exact hvd) (by rw [host_numel]; exact hvn)
    (by rw [host_dtype]; exact hcd) (by rw [host_numel]; exact hcn) hf0 hn hm]
  apply Run.after_congr
  simp only [log_before_faces, vertex_log_host]

/-- On a mesh within bounds the writer returns and the bytes it sends to the
stream are the declared layout. -/
theorem ply_stream_eq (vertices faces colors : Tensor) (n m : Nat)
    (h : MeshInBounds vertices faces colors n m) :
    (ply_stream (if vertices.is_cuda then vertices.to_cpu else vertices)
        (if faces.is_cuda then faces.to_cpu else faces)
        (if colors.is_cuda then colors.to_cpu else colors)).result = .ok () ∧
      bytes_of (ply_stream (if vertices.is_cuda then vertices.to_cpu else vertices)
        (if faces.is_cuda then faces.to_cpu else faces)
        (if colors.is_cuda then colors.to_cpu else colors)).out =
        ply_layout vertices faces colors n m := by
  obtain ⟨hvd, hvs, _, hcd, hcs, _, hfd, hfs, _, hn, hm⟩ := h
  rw [ply_stream_on_host vertices faces colors n m (by simp [Tensor.size, hvs]) hvd
    (by simp [Tensor.numel, hvs]; ring) hcd (by simp [Tensor.numel, hcs]; ring) hfs hn hm]
  have hfd' : (if faces.is_cuda then faces.to_cpu else faces).dtype = .Int := by
    rw [host_dtype]; exact hfd
  rcases write_faces_cases (if faces.is_cuda then faces.to_cpu else faces) m
    (by rw [host_sizes]; exact hfs) hm with ⟨hp, _⟩ | ⟨bs, hw, hbs⟩
  · rw [hfd'] at hp
    exact absurd rfl hp
  · rw [hw, Run.after_mk, hbs hfd']
    refine ⟨rfl, ?_⟩
    show bytes_of (_ ++ _) = _
    rw [bytes_of_append, log_before_faces_bytes]
    have hrec : (List.range m).flatMap
        (face_record (if faces.is_cuda then faces.to_cpu else faces)) =
        (List.range m).flatMap (face_record faces) := by
      show (List.range m).flatMap (fun r => face_record _ r) =
        (List.range m).flatMap (fun r => face_record faces r)
      simp only [face_record, host_word]
    rw [hrec]
    simp only [bytes_of, List.filterMap_cons, Out.byte?]
    rw [show List.filterMap Out.byte? (List.map Out.byte ((List.range m).flatMap
      (face_record faces))) = (List.range m).flatMap (face_record faces) from
      bytes_of_map_byte _]
    rfl

/-- The call on a mesh within bounds, in either build: it returns, and what
reaches the disk is the declared layout when the destination opens, nothing
otherwise. -/
theorem save_mesh_as_ply_ok (ndebug : Bool) (filename : String)
    (vertices faces colors : Tensor) (disk : Disk) (n m : Nat)
    (h : MeshInBounds vertices faces colors n m) :
    (save_mesh_as_ply ndebug filename vertices faces colors disk).result = .ok () ∧
      (save_mesh_as_ply ndebug filename vertices faces colors disk).opened = true ∧
      (save_mesh_as_ply ndebug filename vertices faces colors disk).disk =
        if disk.can_open filename then
          disk.store filename (ply_layout vertices faces colors n m)
        else disk := by
  obtain ⟨hr, hb⟩ := ply_stream_eq vertices faces colors n m h
  rw [save_mesh_as_ply_run ndebug filename vertices faces colors disk
    (save_checks_ok ndebug vertices faces colors h.vertices_contiguous h.faces_contiguous
      h.colors_contiguous (Or.inr h.colors_dtype))]
  simp only [hr, hb]
  exact ⟨trivial, trivial, trivial⟩

theorem le_bytes_length (width w : Nat) : (le_bytes width w).length = width := by
  simp [le_bytes]

theorem vertex_record_length (vertices colors : Tensor) (i : Nat) :
    (vertex_record vertices colors i).length = 15 := by
  simp [vertex_record, le_bytes_length]

theorem face_record_length (faces : Tensor) (r : Nat) : (face_record faces r).length = 16 := by
  simp [face_record, le_bytes_length]

theorem flatMap_length_const {α : Type} (g : Nat → List α) (k : Nat) (h : ∀ i, (g i).length = k) :
    ∀ xs : List Nat, (xs.flatMap g).length = k * xs.length := by
  intro xs
  induction xs with
  | nil => simp
  | cons x xs ih =>
    simp only [List.flatMap_cons, List.length_append, List.length_cons, ih, h]
    ring

theorem ply_layout_length (vertices faces colors : Tensor) (n m : Nat) :
    (ply_layout vertices faces colors n m).length = (ply_header n m).length + 15 * n + 16 * m := by
  unfold ply_layout
  rw [List.length_append, List.length_append,
    flatMap_length_const _ 15 (vertex_record_length vertices colors),
    flatMap_length_const _ 16 (face_record_length faces)]
  simp

set_option maxRecDepth 100000 in
/-- Counterexample to C2: for 2^31 vertices and no face the header announces
2147483648 vertices, but `num_vertices` wraps to -2^31, the vertex loop does
not run, and the file is the header alone: 234 bytes, in either build.  It is
not the header followed by 2^31 vertex records, whose length is
234 + 15 * 2^31. -/
theorem save_huge_mesh_writes_header_only :
    (save_mesh_as_ply true "mesh.ply" hugeVertices noFaces hugeColors emptyDisk).disk.file
        "mesh.ply" = some (ply_header 2147483648 0) ∧
      (save_mesh_as_ply false "mesh.ply" hugeVertices noFaces hugeColors emptyDisk).disk.file
        "mesh.ply" = some (ply_header 2147483648 0) ∧
      (ply_header 2147483648 0).length = 234 ∧
      (ply_header 2147483648 0 ++
          (List.range 2147483648).flatMap (vertex_record hugeVertices hugeColors) ++
          (List.range 0).flatMap (face_record noFaces)).length = 234 + 15 * 2147483648 ∧
      (save_mesh_as_ply true "mesh.ply" hugeVertices noFaces hugeColors emptyDisk).disk.file
        "mesh.ply" ≠ some (ply_header 2147483648 0 ++
          (List.range 2147483648).flatMap (vertex_record hugeVertices hugeColors) ++
          (List.range 0).flatMap (face_record noFaces)) := by
  have hw : (save_mesh_as_ply true "mesh.ply" hugeVertices noFaces hugeColors
      emptyDisk).disk.file "mesh.ply" = some (ply_header 2147483648 0) := by rfl
  have hw' : (save_mesh_as_ply false "mesh.ply" hugeVertices noFaces hugeColors
      emptyDisk).disk.file "mesh.ply" = some (ply_header 2147483648 0) := by rfl
  have hlen : (ply_header 2147483648 0).length = 234 := by rfl
  have hlay := ply_layout_length hugeVertices noFaces hugeColors 2147483648 0
  unfold ply_layout at hlay
  rw [hlen] at hlay
  refine ⟨hw, hw', hlen, hlay, ?_⟩
  rw [hw]
  intro heq
  have hmap := congrArg (Option.map List.length) heq
  rw [Option.map_some', Option.map_some', hlen, hlay] at hmap
  injection hmap with hmap
  omega

/-- C2, amended: for a mesh of `n` vertices and `m` faces stored contiguously
with `3 n` and `4 m` at most 2^31 - 1, and a destination that opens, the call
returns and the file holds exactly the header, then the `n` vertex records of
15 bytes, then the `m` face records of 16 bytes, in input order; its length is
the length of the header plus `15 n + 16 m`.  This holds in either build. -/
theorem save_writes_layout (ndebug : Bool) (filename : String)
    (vertices faces colors : Tensor) (disk : Disk)
    (n m : Nat) (h : MeshInBounds vertices faces colors n m)
    (hopen : disk.can_open filename = true) :
    (save_mesh_as_ply ndebug filename vertices faces colors disk).result = .ok () ∧
      (save_mesh_as_ply ndebug filename vertices faces colors disk).disk.file filename =
        some (ply_header n m ++ (List.range n).flatMap (vertex_record vertices colors) ++
          (List.range m).flatMap (face_record faces)) ∧
      (∀ i, (vertex_record vertices colors i).length = 15) ∧
      (∀ r, (face_record faces r).length = 16) ∧
      (ply_header n m ++ (List.range n).flatMap (vertex_record vertices colors) ++
          (List.range m).flatMap (face_record faces)).length =
        (ply_header n m).length + 15 * n + 16 * m := by
  obtain ⟨hr, _, hd⟩ := save_mesh_as_ply_ok ndebug filename vertices faces colors disk n m h
  refine ⟨hr, ?_, vertex_record_length vertices colors, face_record_length faces,
    ply_layout_length vertices faces colors n m⟩
  rw [hd]
  simp [hopen, Disk.store, ply_layout]

theorem twoVertices_mesh : MeshInBounds twoVertices oneFace twoColors 2 1 :=
  ⟨rfl, rfl, rfl, rfl, rfl, rfl, rfl, rfl, rfl, by decide, by decide⟩

/-- Witness for the amended C2: a mesh of two vertices and one face, in the
build with `NDEBUG`. -/
theorem save_writes_layout_witness :
    (save_mesh_as_ply true "mesh.ply" twoVertices oneFace twoColors emptyDisk).result = .ok () ∧
      (save_mesh_as_ply true "mesh.ply" twoVertices oneFace twoColors emptyDisk).disk.file
          "mesh.ply" =
        some (ply_header 2 1 ++ (List.range 2).flatMap (vertex_record twoVertices twoColors) ++
          (List.range 1).flatMap (face_record oneFace)) ∧
      (∀ i, (vertex_record twoVertices twoColors i).length = 15) ∧
      (∀ r, (face_record oneFace r).length = 16) ∧
      (ply_header 2 1 ++ (List.range 2).flatMap (vertex_record twoVertices twoColors) ++
          (List.range 1).flatMap (face_record oneFace)).length =
        (ply_header 2 1).length + 15 * 2 + 16 * 1 :=
  save_writes_layout true "mesh.ply" twoVertices oneFace twoColors emptyDisk 2 1
    twoVertices_mesh rfl

/-- Counterexample to C6: on a disk where no path opens, the call on a mesh
of two vertices and one face returns normally in either build; no error is
raised and no file appears. -/
theorem save_returns_when_open_fails :
    lockedDisk.can_open "mesh.ply" = false ∧
      (save_mesh_as_ply true "mesh.ply" twoVertices oneFace twoColors lockedDisk).result
        = .ok () ∧
      (save_mesh_as_ply true "mesh.ply" twoVertices oneFace twoColors lockedDisk).disk.file
        "mesh.ply" = none ∧
      (save_mesh_as_ply false "mesh.ply" twoVertices oneFace twoColors lockedDisk).result
        = .ok () ∧
      (save_mesh_as_ply false "mesh.ply" twoVertices oneFace twoColors lockedDisk).disk.file
        "mesh.ply" = none := by
  obtain ⟨hr, _, hd⟩ := save_mesh_as_ply_ok true "mesh.ply" twoVertices oneFace twoColors
    lockedDisk 2 1 twoVertices_mesh
  obtain ⟨hr', _, hd'⟩ := save_mesh_as_ply_ok false "mesh.ply" twoVertices oneFace twoColors
    lockedDisk 2 1 twoVertices_mesh
  rw [hd, hd']
  exact ⟨rfl, hr, rfl, hr', rfl⟩

/-- When the destination cannot be opened the disk stays as it was, whatever
the arguments. -/
theorem save_disk_unchanged (ndebug : Bool) (filename : String)
    (vertices faces colors : Tensor) (disk : Disk) (hopen : disk.can_open filename = false) :
    (save_mesh_as_ply ndebug filename vertices faces colors disk).disk = disk := by
  unfold save_mesh_as_ply
  split
  · rfl
  · simp [hopen]

/-- C6, amended: when the destination cannot be opened for writing, the call
on a mesh within bounds returns normally and leaves the disk as it was: the
failure to open is not reported.  This holds in either build. -/
theorem save_ignores_open_failure (ndebug : Bool) (filename : String)
    (vertices faces colors : Tensor) (disk : Disk) (n m : Nat)
    (hopen : disk.can_open filename = false)
    (h : MeshInBounds vertices faces colors n m) :
    (save_mesh_as_ply ndebug filename vertices faces colors disk).result = .ok () ∧
      (save_mesh_as_ply ndebug filename vertices faces colors disk).disk = disk :=
  ⟨(save_mesh_as_ply_ok ndebug filename vertices faces colors disk n m h).1,
    save_disk_unchanged ndebug filename vertices faces colors disk hopen⟩

/-- Witness for the amended C6: the mesh of two vertices and one face on a
disk where no path opens, in the build with `NDEBUG`. -/
theorem save_ignores_open_failure_witness :
    (save_mesh_as_ply true "mesh.ply" twoVertices oneFace twoColors lockedDisk).result
        = .ok () ∧
      (save_mesh_as_ply true "mesh.ply" twoVertices oneFace twoColors lockedDisk).disk
        = lockedDisk :=
  save_ignores_open_failure true "mesh.ply" twoVertices oneFace twoColors lockedDisk 2 1 rfl
    twoVertices_mesh

/-! ## Reading back what was written -/

theorem digitChar_toNat (k : Nat) (h : k < 10) : (Nat.digitChar k).toNat = 48 + k := by
  interval_cases k <;> rfl

theorem parse_digits_append (xs ys : List Nat) :
    ∀ acc, parse_digits acc (xs ++ ys) =
      (parse_digits acc xs).bind (fun v => parse_digits v ys) := by
  induction xs with
  | nil => intro acc; simp [parse_digits]
  | cons x xs ih =>
    intro acc
    simp only [List.cons_append, parse_digits]
    split
    · exact ih _
    · rfl

/-- The digits that `Nat.toDigitsCore` puts in front of its accumulator are
decimal digits that spell the number. -/
theorem toDigitsCore_spec :
    ∀ (fuel n : Nat) (ds : List Char), n < fuel →
      ∃ xs : List Char, Nat.toDigitsCore 10 fuel n ds = xs ++ ds ∧ xs ≠ [] ∧
        (∀ c ∈ xs, 48 ≤ c.toNat ∧ c.toNat ≤ 57) ∧
        ∀ acc, parse_digits acc (xs.map Char.toNat) = some (acc * 10 ^ xs.length + n) := by
  intro fuel
  induction fuel with
  | zero => intro n ds h; omega
  | succ fuel ih =>
    intro n ds h
    have hd : (Nat.digitChar (n % 10)).toNat = 48 + n % 10 :=
      digitChar_toNat _ (Nat.mod_lt _ (by decide))
    by_cases h0 : n / 10 = 0
    · refine ⟨[Nat.digitChar (n % 10)], by simp [Nat.toDigitsCore, h0], by simp, ?_, ?_⟩
      · intro c hc
        simp only [List.mem_singleton] at hc
        subst hc
        omega
      · intro acc
        have hn10 : n % 10 = n := by omega
        rw [hn10] at hd
        simp only [List.map_cons, List.map_nil, parse_digits, hn10, hd, List.length_singleton,
          pow_one]
        rw [if_pos (by omega)]
        congr 1
        omega
    · have hlt : n / 10 < fuel := by omega
      obtain ⟨xs, hxs, _, hdig, hparse⟩ := ih (n / 10) (Nat.digitChar (n % 10) :: ds) hlt
      refine ⟨xs ++ [Nat.digitChar (n % 10)], by simp [Nat.toDigitsCore, h0, hxs], by simp,
        ?_, ?_⟩
      · intro c hc
        rcases List.mem_append.mp hc with hc | hc
        · exact hdig c hc
        · simp only [List.mem_singleton] at hc
          subst hc
          omega
      · intro acc
        rw [List.map_append, parse_digits_append, hparse acc]
        simp only [List.map_cons, List.map_nil, Option.some_bind, parse_digits, hd]
        rw [if_pos (by omega)]
        simp only [List.length_append, List.length_singleton, pow_succ]
        congr 1
        have := Nat.div_add_mod n 10
        have e : 48 + n % 10 - 48 = n % 10 := by omega
        rw [e]
        nlinarith [Nat.div_add_mod n 10]

/-- The decimal text of a number: non-empty, without a newline, and read back
as the number. -/
theorem decimal_text_spec (n : Nat) :
    10 ∉ ascii (toString n) ∧ parse_decimal (ascii (toString n)) = some n := by
  obtain ⟨xs, hxs, hne, hdig, hparse⟩ := toDigitsCore_spec (n + 1) n [] (Nat.lt_succ_self n)
  have htext : ascii (toString n) = xs.map Char.toNat := by
    show (Nat.toDigits 10 n).map Char.toNat = _
    unfold Nat.toDigits
    rw [hxs, List.append_nil]
  rw [htext]
  constructor
  · intro hmem
    obtain ⟨c, hc, hc10⟩ := List.mem_map.mp hmem
    have := hdig c hc
    omega
  · unfold parse_decimal
    rw [if_neg (by simpa using hne), hparse 0]
    simp

theorem read_line_append (l rest : List Nat) (h : 10 ∉ l) :
    read_line (l ++ 10 :: rest) = some (l, rest) := by
  induction l with
  | nil => simp [read_line]
  | cons b bs ih =>
    have hb : b ≠ 10 := fun e => h (by simp [e])
    have hbs : 10 ∉ bs := fun e => h (by simp [e])
    simp [read_line, hb, ih hbs]

theorem expect_line_ok (text : String) (rest : List Nat) (h : 10 ∉ ascii text) :
    expect_line text (ascii text ++ 10 :: rest) = some rest := by
  simp [expect_line, read_line_append _ _ h]

theorem count_line_ok (text : String) (n : Nat) (rest : List Nat) (h : 10 ∉ ascii text) :
    count_line text (ascii text ++ (ascii (toString n) ++ 10 :: rest)) = some (n, rest) := by
  obtain ⟨hnl, hparse⟩ := decimal_text_spec n
  have hline : 10 ∉ ascii text ++ ascii (toString n) := by
    intro hmem
    rcases List.mem_append.mp hmem with hm | hm
    · exact h hm
    · exact hnl hm
  have := read_line_append (ascii text ++ ascii (toString n)) rest hline
  rw [List.append_assoc] at this
  simp [count_line, this, hparse]

theorem ply_header_lines (n m : Nat) (rest : List Nat) :
    ply_header n m ++ rest =
      ascii "ply" ++ 10 :: (ascii "format binary_little_endian 1.0" ++ 10 ::
      (ascii "element vertex " ++ (ascii (toString n) ++ 10 ::
      (ascii "property float x" ++ 10 :: (ascii "property float y" ++ 10 ::
      (ascii "property float z" ++ 10 :: (ascii "property uchar red" ++ 10 ::
      (ascii "property uchar green" ++ 10 :: (ascii "property uchar blue" ++ 10 ::
      (ascii "element face " ++ (ascii (toString m) ++ 10 ::
      (ascii "property list int int vertex_index" ++ 10 ::
      (ascii "end_header" ++ 10 :: rest))))))))))))) := by
  have e1 : ascii "ply\n" = ascii "ply" ++ [10] := rfl
  have e2 : ascii "format binary_little_endian 1.0\n" =
      ascii "format binary_little_endian 1.0" ++ [10] := rfl
  have e3 : ascii "\n" = [10] := rfl
  have e4 : ascii "property float x\n" = ascii "property float x" ++ [10] := rfl
  have e5 : ascii "property float y\n" = ascii "property float y" ++ [10] := rfl
  have e6 : ascii "property float z\n" = ascii "property float z" ++ [10] := rfl
  have e7 : ascii "property uchar red\n" = ascii "property uchar red" ++ [10] := rfl
  have e8 : ascii "property uchar green\n" = ascii "property uchar green" ++ [10] := rfl
  have e9 : ascii "property uchar blue\n" = ascii "property uchar blue" ++ [10] := rfl
  have e10 : ascii "property list int int vertex_index\n" =
      ascii "property list int int vertex_index" ++ [10] := rfl
  have e11 : ascii "end_header\n" = ascii "end_header" ++ [10] := rfl
  unfold ply_header
  rw [e1, e2, e3, e4, e5, e6, e7, e8, e9, e10, e11]
  simp only [List.append_assoc, List.singleton_append, List.cons_append, List.nil_append]

/-- The reader gets the two counts out of the header and stops right after
it. -/
theorem read_header_ok (n m : Nat) (rest : List Nat) :
    read_header (ply_header n m ++ rest) = some (n, m, rest) := by
  rw [ply_header_lines]
  unfold read_header
  simp only [expect_lines]
  rw [expect_line_ok "ply" _ (by decide)]
  simp only []
  rw [expect_line_ok "format binary_little_endian 1.0" _ (by decide)]
  simp only []
  rw [count_line_ok "element vertex " n _ (by decide)]
  simp only []
  rw [expect_line_ok "property float x" _ (by decide)]
  simp only []
  rw [expect_line_ok "property float y" _ (by decide)]
  simp only []
  rw [expect_line_ok "property float z" _ (by decide)]
  simp only []
  rw [expect_line_ok "property uchar red" _ (by decide)]
  simp only []
  rw [expect_line_ok "property uchar green" _ (by decide)]
  simp only []
  rw [expect_line_ok "property uchar blue" _ (by decide)]
  simp only []
  rw [count_line_ok "element face " m _ (by decide)]
  simp only []
  rw [expect_line_ok "property list int int vertex_index" _ (by decide)]
  simp only []
  rw [expect_line_ok "end_header" _ (by decide)]

theorem read_word_le_bytes (w : Nat) (rest : List Nat) (h : w < 2 ^ 32) :
    read_word (le_bytes 4 w ++ rest) = some (w, rest) := by
  rw [le_bytes_four]
  simp only [List.cons_append, List.nil_append, read_word, le_word, List.foldr]
  congr 2
  norm_num at h
  omega

theorem word_lt_of_float (t : Tensor) (h : t.dtype = .Float) (i : Nat) : t.word i < 2 ^ 32 := by
  have := word_lt t i
  rw [h] at this
  exact this

theorem word_lt_of_int (t : Tensor) (h : t.dtype = .Int) (i : Nat) : t.word i < 2 ^ 32 := by
  have := word_lt t i
  rw [h] at this
  exact this

theorem read_vertex_record (vertices colors : Tensor) (hv : vertices.dtype = .Float) (i : Nat)
    (rest : List Nat) :
    read_vertex (vertex_record vertices colors i ++ rest) =
      some (((vertices.word (3 * i), vertices.word (3 * i + 1), vertices.word (3 * i + 2)),
        (colors.word (3 * i), colors.word (3 * i + 1), colors.word (3 * i + 2))), rest) := by
  unfold read_vertex vertex_record
  simp only [read_words, List.append_assoc,
    read_word_le_bytes _ _ (word_lt_of_float vertices hv _), List.cons_append, List.nil_append]

theorem read_vertices_records (vertices colors : Tensor) (hv : vertices.dtype = .Float)
    (rest : List Nat) :
    ∀ (n start : Nat),
      read_vertices n ((List.range' start n).flatMap (vertex_record vertices colors) ++ rest) =
        some ((List.range' start n).map (fun i =>
          ((vertices.word (3 * i), vertices.word (3 * i + 1), vertices.word (3 * i + 2)),
            (colors.word (3 * i), colors.word (3 * i + 1), colors.word (3 * i + 2)))), rest) := by
  intro n
  induction n with
  | zero => intro start; simp [read_vertices]
  | succ n ih =>
    intro start
    simp only [List.range'_succ, List.flatMap_cons, List.append_assoc, read_vertices,
      read_vertex_record vertices colors hv, ih (start + 1), List.map_cons]

theorem read_face_record (faces : Tensor) (hf : faces.dtype = .Int) (r : Nat)
    (rest : List Nat) :
    read_face (face_record faces r ++ rest) =
      some ([faces.word (3 * r), faces.word (3 * r + 1), faces.word (3 * r + 2)], rest) := by
  unfold read_face face_record
  simp only [List.append_assoc, read_word_le_bytes 3 _ (by norm_num)]
  rw [if_pos (by norm_num)]
  simp only [read_words, read_word_le_bytes _ _ (word_lt_of_int faces hf _)]

theorem read_faces_records (faces : Tensor) (hf : faces.dtype = .Int) (rest : List Nat) :
    ∀ (m start : Nat),
      read_faces m ((List.range' start m).flatMap (face_record faces) ++ rest) =
        some ((List.range' start m).map (fun r =>
          [faces.word (3 * r), faces.word (3 * r + 1), faces.word (3 * r + 2)]), rest) := by
  intro m
  induction m with
  | zero => intro start; simp [read_faces]
  | succ m ih =>
    intro start
    simp only [List.range'_succ, List.flatMap_cons, List.append_assoc, read_faces,
      read_face_record faces hf, ih (start + 1), List.map_cons]

/-- The reference reader applied to the declared layout of a mesh delivers
the mesh. -/
theorem read_ply_layout (vertices faces colors : Tensor) (n m : Nat)
    (hv : vertices.dtype = .Float) (hf : faces.dtype = .Int) :
    read_ply (ply_layout vertices faces colors n m) = some (mesh_of vertices faces colors n m) := by
  unfold read_ply ply_layout
  rw [List.append_assoc, read_header_ok]
  simp only [List.range_eq_range']
  rw [read_vertices_records vertices colors hv]
  have := read_faces_records faces hf [] m 0
  rw [List.append_nil] at this
  simp only [this, mesh_of, List.range_eq_range', List.map_map]
  rfl

theorem read_vertices_nil (n : Nat) : read_vertices (n + 1) [] = none := by
  simp [read_vertices, read_vertex, read_words, read_word]

set_option maxRecDepth 100000 in
/-- Counterexample to C3: for 2^31 vertices and no face the file is the
header alone, which announces 2147483648 vertices; the reference reader finds
no vertex record after it and recovers nothing, in either build. -/
theorem read_back_huge_mesh_fails :
    ((save_mesh_as_ply true "mesh.ply" hugeVertices noFaces hugeColors emptyDisk).disk.file
        "mesh.ply").bind read_ply = none ∧
      ((save_mesh_as_ply false "mesh.ply" hugeVertices noFaces hugeColors emptyDisk).disk.file
        "mesh.ply").bind read_ply = none := by
  have hw : (save_mesh_as_ply true "mesh.ply" hugeVertices noFaces hugeColors
      emptyDisk).disk.file "mesh.ply" = some (ply_header 2147483648 0) := by rfl
  have hw' : (save_mesh_as_ply false "mesh.ply" hugeVertices noFaces hugeColors
      emptyDisk).disk.file "mesh.ply" = some (ply_header 2147483648 0) := by rfl
  have hh := read_header_ok 2147483648 0 []
  rw [List.append_nil] at hh
  have hv : read_vertices 2147483648 [] = none := read_vertices_nil 2147483647
  rw [hw, hw', Option.some_bind]
  unfold read_ply
  rw [hh]
  simp only [hv, and_self]

/-- C3, amended: for a mesh of `n` vertices and `m` faces stored contiguously
with `3 n` and `4 m` at most 2^31 - 1, and a destination that opens, the
reference reader applied to the file that `save_mesh_as_ply` wrote recovers
the vertex count `n`, the face count `m`, and the same positions (float32 bit
patterns), color bytes and face index triples, in the same order.  This holds
in either build. -/
theorem save_then_read (ndebug : Bool) (filename : String) (vertices faces colors : Tensor)
    (disk : Disk) (n m : Nat) (h : MeshInBounds vertices faces colors n m)
    (hopen : disk.can_open filename = true) :
    ((save_mesh_as_ply ndebug filename vertices faces colors disk).disk.file filename).bind
        read_ply = some (mesh_of vertices faces colors n m) := by
  rw [(save_mesh_as_ply_ok ndebug filename vertices faces colors disk n m h).2.2]
  simp only [hopen, if_true, Disk.store, Option.some_bind]
  exact read_ply_layout vertices faces colors n m h.vertices_dtype h.faces_dtype

/-- Witness for the amended C3: the mesh of two vertices and one face, in the
build with `NDEBUG`. -/
theorem save_then_read_witness :
    ((save_mesh_as_ply true "mesh.ply" twoVertices oneFace twoColors emptyDisk).disk.file
        "mesh.ply").bind read_ply = some (mesh_of twoVertices oneFace twoColors 2 1) :=
  save_then_read true "mesh.ply" twoVertices oneFace twoColors emptyDisk 2 1 twoVertices_mesh rfl

theorem mem_log_before_faces_counts (vertices colors : Tensor) (n m : Nat) :
    Out.int32 n n ∈ log_before_faces vertices colors n m ∧
      Out.int32 m m ∈ log_before_faces vertices colors n m := by
  simp [log_before_faces]

theorem mem_log_before_faces_vertex (vertices colors : Tensor) (n m i : Nat) (hi : i < n) :
    Out.int32 ((i : Int) * 3) ((i : Int) * 3) ∈ log_before_faces vertices colors n m ∧
      Out.read (3 * n) ((i : Int) * 3) 3 ∈ log_before_faces vertices colors n m := by
  have hmem : ∀ e ∈ vertex_log vertices colors n i, e ∈ log_before_faces vertices colors n m := by
    intro e he
    simp only [log_before_faces, List.mem_append]
    exact Or.inr (List.mem_flatMap.mpr ⟨i, List.mem_range.mpr hi, he⟩)
  exact ⟨hmem _ (by simp [vertex_log]), hmem _ (by simp [vertex_log])⟩

set_option maxRecDepth 100000 in
/-- Counterexample to C10: no vertex (so positions and colors hold exactly
`3 * 0` elements) and a faces tensor of one row of two int32 indices, so that
`M = 1` and both bounds hold.  The padded faces hold 3 words, the writer reads
`num_faces * 4 = 4` words from offset 0: a read that leaves its buffer, in
either build. -/
theorem save_short_face_rows_read_out_of_bounds :
    noVertices.size 0 = .ok 0 ∧ noVertices.dtype = .Float ∧ noVertices.numel = 3 * 0 ∧
      noColors.dtype = .Byte ∧ noColors.numel = 3 * 0 ∧ shortFace.size 0 = .ok 1 ∧
      3 * 0 ≤ 2 ^ 31 - 1 ∧ 4 * 1 ≤ 2 ^ 31 - 1 ∧
      Out.read 3 0 4 ∈
        (save_mesh_as_ply true "mesh.ply" noVertices shortFace noColors emptyDisk).log ∧
      Out.safe (Out.read 3 0 4) = false ∧
      (save_mesh_as_ply true "mesh.ply" noVertices shortFace noColors emptyDisk).log.all
        Out.safe = false ∧
      (save_mesh_as_ply true "mesh.ply" noVertices shortFace noColors emptyDisk).result
        = .error .undefinedBehaviour ∧
      (save_mesh_as_ply false "mesh.ply" noVertices shortFace noColors emptyDisk).log.all
        Out.safe = false := by
  have hlog : (save_mesh_as_ply true "mesh.ply" noVertices shortFace noColors emptyDisk).log =
      log_before_faces noVertices noColors 0 1 ++ [Out.int32 4 4, Out.read 3 0 4] := by rfl
  have hlog' : (save_mesh_as_ply false "mesh.ply" noVertices shortFace noColors emptyDisk).log =
      log_before_faces noVertices noColors 0 1 ++ [Out.int32 4 4, Out.read 3 0 4] := by rfl
  have hbad : Out.safe (Out.read 3 0 4) = false := by decide
  have hall : (log_before_faces noVertices noColors 0 1 ++
      [Out.int32 4 4, Out.read 3 0 4]).all Out.safe = false := by
    rw [List.all_append, log_before_faces_safe]
    decide
  refine ⟨rfl, rfl, rfl, rfl, rfl, rfl, by decide, by decide, ?_, hbad, ?_, by rfl, ?_⟩
  · rw [hlog]
    exact List.mem_append_right _ (by simp)
  · rw [hlog]
    exact hall
  · rw [hlog']
    exact hall

/-- C10, amended: with positions that hold exactly `3 n` float32 values and
whose first extent is `n`, colors that hold exactly `3 n` bytes, faces of
shape `(m, 3)`, `3 n <= 2^31 - 1` and `4 m <= 2^31 - 1`, everything the call
does is harmless: every `int32_t` expression it computes holds its
mathematical value and every read lies inside its buffer, so the call never
ends in undefined behaviour.  When the tensors are contiguous the log does
contain `num_vertices = n`, `num_faces = m`, and for each `i < n` the offset
`i * 3` and the read of 3 elements from it in a buffer of `3 n`; for int32
faces the call returns, having computed `num_faces * 4 = 4 m` and read the
`4 m` padded words.  This holds in either build. -/
theorem save_int32_exact_and_reads_in_bounds (ndebug : Bool) (filename : String)
    (vertices faces colors : Tensor) (disk : Disk) (n m : Nat)
    (hv0 : vertices.size 0 = .ok n) (hvd : vertices.dtype = .Float)
    (hvn : vertices.numel = 3 * n)
    (hcd : colors.dtype = .Byte) (hcn : colors.numel = 3 * n)
    (hfs : faces.sizes = [m, 3])
    (hn : 3 * n ≤ 2 ^ 31 - 1) (hm : 4 * m ≤ 2 ^ 31 - 1) :
    (save_mesh_as_ply ndebug filename vertices faces colors disk).log.all Out.safe = true ∧
      (save_mesh_as_ply ndebug filename vertices faces colors disk).result
        ≠ .error .undefinedBehaviour ∧
      (vertices.is_contiguous = true → faces.is_contiguous = true →
        colors.is_contiguous = true →
        Out.int32 n n ∈ (save_mesh_as_ply ndebug filename vertices faces colors disk).log ∧
        Out.int32 m m ∈ (save_mesh_as_ply ndebug filename vertices faces colors disk).log ∧
        (∀ i : Nat, i < n →
          Out.int32 ((i : Int) * 3) ((i : Int) * 3) ∈
            (save_mesh_as_ply ndebug filename vertices faces colors disk).log ∧
          Out.read (3 * n) ((i : Int) * 3) 3 ∈
            (save_mesh_as_ply ndebug filename vertices faces colors disk).log) ∧
        (faces.dtype = .Int →
          (save_mesh_as_ply ndebug filename vertices faces colors disk).result = .ok () ∧
          Out.int32 ((m : Int) * 4) ((m : Int) * 4) ∈
            (save_mesh_as_ply ndebug filename vertices faces colors disk).log ∧
          Out.read (4 * m) 0 ((m : Int) * 4) ∈
            (save_mesh_as_ply ndebug filename vertices faces colors disk).log)) := by
  cases hchk : save_checks ndebug vertices faces colors with
  | error e =>
    have hS : save_mesh_as_ply ndebug filename vertices faces colors disk =
        ⟨.error e, false, disk, []⟩ := by
      unfold save_mesh_as_ply
      rw [hchk]
    rw [hS]
    refine ⟨rfl, ?_, ?_⟩
    · intro h
      injection h with h
      rcases save_checks_error ndebug vertices faces colors e hchk with h1 | h1 <;>
        rw [h1] at h <;> cases h
    · intro hv hf hc
      rw [save_checks_ok ndebug vertices faces colors hv hf hc (Or.inr hcd)] at hchk
      cases hchk
  | ok u =>
    rw [save_mesh_as_ply_run ndebug filename vertices faces colors disk hchk,
      ply_stream_on_host vertices faces colors n m hv0 hvd hvn hcd hcn hfs hn hm]
    obtain ⟨hcn1, hcn2⟩ := mem_log_before_faces_counts vertices colors n m
    rcases write_faces_cases (if faces.is_cuda then faces.to_cpu else faces) m
      (by rw [host_sizes]; exact hfs) hm with ⟨hp, hw⟩ | ⟨bs, hw, _⟩
    · rw [hw, Run.after_mk]
      refine ⟨?_, ?_, ?_⟩
      · simp only [List.append_nil]
        exact log_before_faces_safe vertices colors n m
      · intro h
        cases h
      · intro _ _ _
        refine ⟨List.mem_append_left _ hcn1, List.mem_append_left _ hcn2, ?_, ?_⟩
        · intro i hi
          obtain ⟨h1, h2⟩ := mem_log_before_faces_vertex vertices colors n m i hi
          exact ⟨List.mem_append_left _ h1, List.mem_append_left _ h2⟩
        · intro hfd
          rw [host_dtype, hfd] at hp
          exact absurd rfl hp
    · rw [hw, Run.after_mk]
      have hread : Out.safe (Out.read (4 * m) 0 ((m : Int) * 4)) = true := by
        simp only [Out.safe, decide_eq_true_eq]
        omega
      have hcount : Out.safe (Out.int32 ((m : Int) * 4) ((m : Int) * 4)) = true := by
        simp [Out.safe]
      refine ⟨?_, ?_, ?_⟩
      · simp only [List.all_append, List.all_cons, log_before_faces_safe, all_safe_map_byte,
          hread, hcount, Bool.and_self]
      · intro h
        cases h
      · intro _ _ _
        refine ⟨List.mem_append_left _ hcn1, List.mem_append_left _ hcn2, ?_, ?_⟩
        · intro i hi
          obtain ⟨h1, h2⟩ := mem_log_before_faces_vertex vertices colors n m i hi
          exact ⟨List.mem_append_left _ h1, List.mem_append_left _ h2⟩
        · intro _
          exact ⟨rfl, List.mem_append_right _ (by simp), List.mem_append_right _ (by simp)⟩

/-- Witness for the amended C10: the mesh of two vertices and one face, in
the build with `NDEBUG`. -/
theorem save_int32_exact_and_reads_in_bounds_witness :
    (save_mesh_as_ply true "mesh.ply" twoVertices oneFace twoColors emptyDisk).log.all
        Out.safe = true ∧
      (save_mesh_as_ply true "mesh.ply" twoVertices oneFace twoColors emptyDisk).result
        ≠ .error .undefinedBehaviour ∧
      (twoVertices.is_contiguous = true → oneFace.is_contiguous = true →
        twoColors.is_contiguous = true →
        Out.int32 (2 : Nat) (2 : Nat) ∈
          (save_mesh_as_ply true "mesh.ply" twoVertices oneFace twoColors emptyDisk).log ∧
        Out.int32 (1 : Nat) (1 : Nat) ∈
          (save_mesh_as_ply true "mesh.ply" twoVertices oneFace twoColors emptyDisk).log ∧
        (∀ i : Nat, i < 2 →
          Out.int32 ((i : Int) * 3) ((i : Int) * 3) ∈
            (save_mesh_as_ply true "mesh.ply" twoVertices oneFace twoColors emptyDisk).log ∧
          Out.read (3 * 2) ((i : Int) * 3) 3 ∈
            (save_mesh_as_ply true "mesh.ply" twoVertices oneFace twoColors emptyDisk).log) ∧
        (oneFace.dtype = .Int →
          (save_mesh_as_ply true "mesh.ply" twoVertices oneFace twoColors emptyDisk).result
            = .ok () ∧
          Out.int32 (((1 : Nat) : Int) * 4) (((1 : Nat) : Int) * 4) ∈
            (save_mesh_as_ply true "mesh.ply" twoVertices oneFace twoColors emptyDisk).log ∧
          Out.read (4 * 1) 0 (((1 : Nat) : Int) * 4) ∈
            (save_mesh_as_ply true "mesh.ply" twoVertices oneFace twoColors emptyDisk).log)) :=
  save_int32_exact_and_reads_in_bounds true "mesh.ply" twoVertices oneFace twoColors emptyDisk
    2 1 rfl rfl rfl rfl rfl rfl (by decide) (by decide)

/-- In the build without `NDEBUG` a colors buffer that is not uint8 makes the
call fail before the destination is opened, and the disk stays as it was. -/
theorem save_checked_build_rejects_colors (filename : String) (vertices faces colors : Tensor)
    (disk : Disk) (h : colors.dtype ≠ .Byte) :
    (∃ e, (save_mesh_as_ply false filename vertices faces colors disk).result = .error e) ∧
      (save_mesh_as_ply false filename vertices faces colors disk).opened = false ∧
      (save_mesh_as_ply false filename vertices faces colors disk).disk = disk := by
  have hchk : ∃ e, save_checks false vertices faces colors = .error e := by
    unfold save_checks CHECK_CONTIGUOUS c_assert
    cases vertices.is_contiguous <;> cases faces.is_contiguous <;>
      cases colors.is_contiguous <;> simp [bind, Except.bind, h]
  obtain ⟨e, he⟩ := hchk
  unfold save_mesh_as_ply
  rw [he]
  exact ⟨⟨e, rfl⟩, rfl, rfl⟩

/-- The writer never returns normally on colors that are not uint8: at the
latest `data_ptr<uint8_t>()` on line 109 raises. -/
theorem ply_stream_fails_on_colors (vertices faces colors : Tensor)
    (h : colors.dtype ≠ .Byte) :
    ∃ e, (ply_stream vertices faces colors).result = .error e := by
  cases hr : (ply_stream vertices faces colors).result with
  | error e => exact ⟨e, rfl⟩
  | ok u =>
    exfalso
    unfold ply_stream at hr
    simp only [Run.bind_eq] at hr
    iterate 21 (obtain ⟨_, _, hr⟩ := Run.andThen_result_ok _ _ _ hr)
    obtain ⟨cp, hcp, _⟩ := Run.andThen_result_ok _ _ _ hr
    simp [Run.lift, Tensor.data_ptr, h] at hcp

/-- In the build with `NDEBUG` the `assert` of line 85 is gone: on contiguous
tensors with a colors buffer that is not uint8 the call opens the destination
first and fails afterwards; a destination that opens is created or truncated
and keeps the bytes sent before the failure. -/
theorem save_ndebug_build_opens_then_fails (filename : String)
    (vertices faces colors : Tensor) (disk : Disk)
    (hv : vertices.is_contiguous = true) (hf : faces.is_contiguous = true)
    (hc : colors.is_contiguous = true) (h : colors.dtype ≠ .Byte) :
    (∃ e, (save_mesh_as_ply true filename vertices faces colors disk).result = .error e) ∧
      (save_mesh_as_ply true filename vertices faces colors disk).opened = true ∧
      (disk.can_open filename = true →
        (save_mesh_as_ply true filename vertices faces colors disk).disk.file filename =
          some (bytes_of (save_mesh_as_ply true filename vertices faces colors disk).log)) := by
  rw [save_mesh_as_ply_run true filename vertices faces colors disk
    (save_checks_ok true vertices faces colors hv hf hc (Or.inl rfl))]
  refine ⟨ply_stream_fails_on_colors _ _ _ (by rw [host_dtype]; exact h), rfl, ?_⟩
  intro hopen
  simp [hopen, Disk.store]

set_option maxRecDepth 100000 in
/-- C9, the code at an input: two vertices, one face and colors held as
float32, on an empty disk where every path opens.  In the build with `NDEBUG`
(the `assert` of line 85 compiled out) the destination is opened and given the
225-byte header before `data_ptr<uint8_t>()` raises on line 109: the file
exists afterwards.  In the build without `NDEBUG` the same call ends in the
failed `assert` with the destination never opened. -/
theorem save_float_colors_at_input :
    floatColors.dtype ≠ .Byte ∧ emptyDisk.file "mesh.ply" = none ∧
      (save_mesh_as_ply true "mesh.ply" twoVertices oneFace floatColors emptyDisk).result
        = .error .runtimeError ∧
      (save_mesh_as_ply true "mesh.ply" twoVertices oneFace floatColors emptyDisk).opened
        = true ∧
      (save_mesh_as_ply true "mesh.ply" twoVertices oneFace floatColors emptyDisk).disk.file
        "mesh.ply" = some (ply_header 2 1) ∧
      (ply_header 2 1).length = 225 ∧
      (save_mesh_as_ply false "mesh.ply" twoVertices oneFace floatColors emptyDisk).result
        = .error .assertFailed ∧
      (save_mesh_as_ply false "mesh.ply" twoVertices oneFace floatColors emptyDisk).opened
        = false ∧
      (save_mesh_as_ply false "mesh.ply" twoVertices oneFace floatColors emptyDisk).disk.file
        "mesh.ply" = none := by
  refine ⟨by decide, rfl, by rfl, by rfl, by rfl, by rfl, by rfl, by rfl, by rfl⟩

end CuMCubes
